

import Mathlib

/-
Verification of the dementia-care companion backend's rule-based cores:
the conversation quality analyzer (`backend/app/services/caregiver_training.py`)
and the keyword safety classifier (`backend/app/agents/tools.py`,
`SafetyAssessmentTool._run`).

The Python code is shallowly embedded: Python `str` becomes Lean `String`
(operated on through its underlying `List Char`, at ASCII fidelity for
case folding and the `\w` character class), Python floats become `ℚ`
(every numeric literal in the analyzed code is an exact decimal), Python
dicts with fixed key sets become structures, and Python lists become
`List`.
-/

set_option maxRecDepth 100000

/-- The apostrophe character, kept out of string literals. -/
def apos : String := (Char.ofNat 39).toString

/-- Model of Python's notion of ASCII whitespace used by `str.strip` /
`str.split()`. -/
def pyIsSpace (c : Char) : Bool :=
  c == ' ' || c == '\t' || c == '\n' || c == '\r' || c == '\x0b' || c == '\x0c'

/-- Model of Python `str.strip()`: drop leading and trailing whitespace. -/
def pyStrip (s : String) : String :=
  String.mk (((s.data.dropWhile pyIsSpace).reverse.dropWhile pyIsSpace).reverse)

/-- ASCII lowercase of one character. -/
def pyCharLower (c : Char) : Char :=
  if 65 ≤ c.toNat && c.toNat ≤ 90 then Char.ofNat (c.toNat + 32) else c

/-- Model of Python `str.lower()` (ASCII case folding). -/
def pyLower (s : String) : String := String.mk (s.data.map pyCharLower)

/-- Split a character list at every character satisfying `p`, keeping the
(possibly empty) groups between separators, as Python `str.split(sep)`
does for a one-character separator. -/
def splitOnPred (p : Char → Bool) : List Char → List (List Char)
  | [] => [[]]
  | c :: rest =>
    match splitOnPred p rest with
    | [] => [[]]
    | g :: gs => if p c then [] :: g :: gs else (c :: g) :: gs

/-- Model of Python `text.split(c)` for a single-character separator. -/
def pySplitChar (sep : Char) (s : String) : List String :=
  (splitOnPred (fun c => c == sep) s.data).map String.mk

/-- Model of Python `str.split()` (split on whitespace runs, dropping
empty tokens). -/
def pyWords (s : String) : List String :=
  ((splitOnPred pyIsSpace s.data).map String.mk).filter (fun w => w ≠ "")

/-- Boolean prefix test on character lists. -/
def isPrefixL : List Char → List Char → Bool
  | [], _ => true
  | _ :: _, [] => false
  | a :: as, b :: bs => a == b && isPrefixL as bs

/-- Boolean substring test on character lists. -/
def isInfixL (pat : List Char) : List Char → Bool
  | [] => isPrefixL pat []
  | c :: rest => isPrefixL pat (c :: rest) || isInfixL pat rest

/-- Model of Python `sub in s` (substring containment). -/
def pyContains (s sub : String) : Bool := isInfixL sub.data s.data

/-- Model of Python `s.startswith(pre)`. -/
def pyStartsWith (s pre : String) : Bool := isPrefixL pre.data s.data

/-- Model of Python `s[n:]` (drop the first `n` code points). -/
def strDrop (s : String) (n : Nat) : String := String.mk (s.data.drop n)

/-- Model of Python `s[:n]` (take the first `n` code points). -/
def strTake (s : String) (n : Nat) : String := String.mk (s.data.take n)

/-- Non-overlapping occurrence counting on character lists, scanning left
to right as Python `str.count` does (for a non-empty pattern).  After a
match the scan skips past the matched characters, tracked by `skip`. -/
def countSubAux (pat : List Char) (skip : Nat) : List Char → Nat
  | [] => 0
  | c :: rest =>
    match skip with
    | n + 1 => countSubAux pat n rest
    | 0 =>
      if isPrefixL pat (c :: rest) && !pat.isEmpty then
        1 + countSubAux pat (pat.length - 1) rest
      else
        countSubAux pat 0 rest

/-- Model of Python `s.count(sub)` for non-empty `sub`. -/
def pyCount (s sub : String) : Nat := countSubAux sub.data 0 s.data

/-- Split at the first occurrence of `sep`, as Python `s.split(sep, 1)`
does when `sep` occurs (returns the parts before and after it). -/
def splitFirstChar (sep : Char) : List Char → Option (List Char × List Char)
  | [] => none
  | c :: rest =>
    if c == sep then some ([], rest)
    else (splitFirstChar sep rest).map (fun p => (c :: p.1, p.2))

/-- Python regex `\w`: word character (ASCII model). -/
def isWordChar (c : Char) : Bool := c.isAlphanum || c == '_'

/-- Does the literal pattern occur at the head of `s` with `\b` word
boundaries on both sides?  `prev` is the character just before `s`
(`none` at the start of the subject). -/
def wbHere (pat s : List Char) (prev : Option Char) : Bool :=
  (match prev with
   | none => true
   | some c => !isWordChar c)
  && isPrefixL pat s
  && (match List.drop pat.length s with
      | [] => true
      | c :: _ => !isWordChar c)

/-- Search every position of `s` for a `\b`-delimited occurrence of the
literal pattern. -/
def wbSearchAux (pat : List Char) (prev : Option Char) : List Char → Bool
  | [] => wbHere pat [] prev
  | c :: rest => wbHere pat (c :: rest) prev || wbSearchAux pat (some c) rest

/-- Model of Python `re.search(r'\b<literal>\b', s) is not None` for a
literal (regex-metacharacter-free) pattern. -/
def reSearchWB (pat s : String) : Bool := wbSearchAux pat.data none s.data

/-- Count of whitespace-delimited tokens equal to `w`: the "literal word"
reading used by the specification when it speaks of the word "or". -/
def literalWordCount (w s : String) : Nat :=
  ((pyWords s).filter (fun x => x = w)).length

/-
Rational arithmetic layer.  The library's `Rat.add/sub/mul/inv` are
`@[irreducible]`, so they cannot be evaluated on concrete inputs by
`decide`/`rfl`.  The embedding therefore computes with the reducible
`mkRat`/`Rat.divInt` forms below; the `*_eq` bridge lemmas identify them
with the ordinary field operations for abstract reasoning.
-/

/-- Reducible rational addition. -/
def qAdd (a b : ℚ) : ℚ := mkRat (a.num * b.den + b.num * a.den) (a.den * b.den)

/-- Reducible rational subtraction. -/
def qSub (a b : ℚ) : ℚ := mkRat (a.num * b.den - b.num * a.den) (a.den * b.den)

/-- Reducible rational multiplication. -/
def qMul (a b : ℚ) : ℚ := mkRat (a.num * b.num) (a.den * b.den)

/-- Reducible rational division. -/
def qDiv (a b : ℚ) : ℚ := Rat.divInt (a.num * b.den) (a.den * b.num)

/-- Reducible embedding of a natural number into `ℚ`. -/
def qOfNat (n : Nat) : ℚ := mkRat n 1

/-- Model of Python `round(q, 2)` (round to two decimal places; exact
decimal inputs in this code base make the binary-float tie behaviour
irrelevant). -/
def round2 (q : ℚ) : ℚ :=
  mkRat (Rat.floor (qAdd (qMul q (qOfNat 100)) (mkRat 1 2))) 100

/-- Model of Python `min(a, b)` on rationals (kept kernel-reducible). -/
def pyMin (a b : ℚ) : ℚ := if a ≤ b then a else b

/-- Model of Python `max(a, b)` on rationals (kept kernel-reducible). -/
def pyMax (a b : ℚ) : ℚ := if a ≤ b then b else a

/-- Crisis keyword list from `SafetyAssessmentTool._run`. -/
def crisis_keywords : List String :=
  ["kill", "die", "suicide", "harm myself", "hurt myself",
   "end it all", "want to die", "better off dead"]

/-- Severe-distress keyword list from `SafetyAssessmentTool._run`. -/
def distress_keywords : List String :=
  ["help me", "scared", "terrified", "can" ++ apos ++ "t breathe",
   "chest pain", "can" ++ apos ++ "t move", "falling", "emergency"]

/-- Agitation keyword list from `SafetyAssessmentTool._run`. -/
def agitation_keywords : List String :=
  ["angry", "frustrated", "leave me alone", "go away",
   "stop", "hate this", "get out"]

/-- The string returned by the crisis branch of `SafetyAssessmentTool._run`. -/
def crisis_response : String :=
  "\nSAFETY ASSESSMENT: CRITICAL\nRisk Level: HIGH - IMMEDIATE INTERVENTION REQUIRED\n\n" ++
  "Indicators: Crisis language detected (self-harm/suicidal ideation)\n\n" ++
  "REQUIRED ACTIONS:\n" ++
  "1. Immediately notify emergency contacts\n" ++
  "2. Engage crisis protocol\n" ++
  "3. Do NOT continue normal conversation\n" ++
  "4. Provide crisis hotline: 988 (Suicide & Crisis Lifeline)\n" ++
  "5. Stay with patient, use calming presence\n" ++
  "6. Say: \"I hear that you" ++ apos ++ "re in pain. Your safety is important. Help is available.\"\n"

/-- The string returned by the severe-distress branch of
`SafetyAssessmentTool._run`. -/
def distress_response : String :=
  "\nSAFETY ASSESSMENT: ELEVATED\nRisk Level: MODERATE - REQUIRES ATTENTION\n\n" ++
  "Indicators: Severe distress or potential medical emergency\n\n" ++
  "RECOMMENDED ACTIONS:\n" ++
  "1. Alert caregiver immediately\n" ++
  "2. Ask gentle clarifying questions\n" ++
  "3. Provide reassurance: \"You" ++ apos ++ "re safe. Help is here.\"\n" ++
  "4. If medical symptoms (chest pain, breathing issues), call 911\n" ++
  "5. Remain calm and present\n"

/-- The string returned by the agitation branch of
`SafetyAssessmentTool._run`. -/
def monitor_response : String :=
  "\nSAFETY ASSESSMENT: MONITOR\nRisk Level: LOW-MODERATE - De-escalation needed\n\n" ++
  "Indicators: Agitation or frustration\n\n" ++
  "RECOMMENDED ACTIONS:\n" ++
  "1. Validate feelings: \"I understand you" ++ apos ++ "re feeling frustrated\"\n" ++
  "2. Offer to end session: \"Would you like to take a break?\"\n" ++
  "3. Switch to calming content (music, nature sounds)\n" ++
  "4. Give space, reduce stimulation\n" ++
  "5. Note in session log for caregiver review\n"

/-- The string returned by the no-concerns branch of
`SafetyAssessmentTool._run`. -/
def clear_response : String :=
  "\nSAFETY ASSESSMENT: CLEAR\nRisk Level: NONE - Continue normal interaction\n\n" ++
  "No safety concerns detected. Proceed with compassionate, validating conversation.\n"

/-- Embedding of `SafetyAssessmentTool._run`: lowercase the message, then
check the crisis, distress and agitation keyword lists in that order,
first match wins, falling through to the clear response.  The `context`
argument is accepted and ignored, as in the source. -/
def SafetyAssessmentTool_run (patient_message : String) (context : String := "") : String :=
  let message_lower := pyLower patient_message
  if crisis_keywords.any (fun k => pyContains message_lower k) then
    crisis_response
  else if distress_keywords.any (fun k => pyContains message_lower k) then
    distress_response
  else if agitation_keywords.any (fun k => pyContains message_lower k) then
    monitor_response
  else
    clear_response

/-- Example message from the specification: crisis overrides agitation. -/
def angry_want_to_die_msg : String := "I" ++ apos ++ "m angry and want to die"

/-- Example distress message from the specification. -/
def scared_cant_breathe_msg : String :=
  "I" ++ apos ++ "m scared, I can" ++ apos ++ "t breathe"

/-- Example agitation message from the specification. -/
def angry_leave_me_alone_msg : String := "I" ++ apos ++ "m so angry, leave me alone"

/-- One parsed utterance (`_parse_conversation` turn dict): `speaker` is
one of the strings "caregiver", "patient", "unknown". -/
structure Turn where
  speaker : String
  text : String
  text_lower : String
deriving DecidableEq, Repr

/-- Result of one principle sub-scorer: a score and evidence strings. -/
structure ScoreResult where
  score : ℚ
  evidence : List String
deriving DecidableEq, Repr

/-- Static configuration of one care principle (`CarePhilosophy.PRINCIPLES`
entry). -/
structure PrincipleInfo where
  title : String
  description : String
  weight : ℚ
deriving DecidableEq, Repr

/-- Embedding of `CarePhilosophy.PRINCIPLES`, in insertion order. -/
def PRINCIPLES : List (String × PrincipleInfo) :=
  [("ritual_over_stimulation",
    ⟨"Ritual Over Stimulation",
     "Novelty creates anxiety. Familiarity creates safety.", mkRat 1 4⟩),
   ("emotion_over_accuracy",
    ⟨"Emotion Over Accuracy",
     "Respond to feelings, not facts. Correctness is optional. Comfort is not.", mkRat 3 10⟩),
   ("presence_over_performance",
    ⟨"Presence Over Performance",
     "No one is asked to remember, improve, or succeed.", mkRat 1 4⟩),
   ("short_steady_repeatable",
    ⟨"Short, Steady, Repeatable",
     "Better to return tomorrow than overwhelm today.", mkRat 1 5⟩)]

/-- One phase entry of `CarePhilosophy.IDEAL_SESSION["phases"]`. -/
structure PhaseConfig where
  name : String
  duration : String
  purpose : String
  example_line : String
  key_points : List String
deriving DecidableEq, Repr

/-- Embedding of `CarePhilosophy.IDEAL_SESSION["duration_minutes"]`. -/
def IDEAL_SESSION_duration_minutes : Nat := 7

/-- Embedding of `CarePhilosophy.IDEAL_SESSION["phases"]`: the six canonical phases. -/
def IDEAL_SESSION_phases : List PhaseConfig :=
  [⟨"Arrival", "0-1 min", "Predictability & Safety",
    "Good morning, [Name]. It" ++ apos ++ "s time for our visit. I" ++ apos ++ "m here with you.",
    ["Use their name",
     "Say " ++ apos ++ "visit" ++ apos ++ " not " ++ apos ++ "session" ++ apos,
     "State presence before purpose",
     "Pause - don" ++ apos ++ "t rush"]⟩,
   ⟨"Gentle Orientation", "1-2 min", "Orientation Without Testing",
    "It" ++ apos ++ "s a calm morning. You" ++ apos ++ "re at home, and things are okay right now.",
    ["Never ask " ++ apos ++ "Do you know...?" ++ apos,
     "Never wait for confirmation",
     "Orientation is offered, not requested",
     "No testing"]⟩,
   ⟨"Familiar Thread", "2-4 min", "Memory Without Recall Pressure",
    "I was thinking about your garden today. You always seemed to enjoy being around plants.",
    ["No " ++ apos ++ "when" ++ apos ++ ", " ++ apos ++ "who" ++ apos ++ ", or " ++ apos ++ "what year" ++ apos,
     "Use " ++ apos ++ "Tell me" ++ apos ++ ", " ++ apos ++ "How did it feel" ++ apos ++ ", " ++ apos ++ "What did you like" ++ apos,
     "Repetition is success",
     "Follow emotion, not facts"]⟩,
   ⟨"Emotional Reflection", "4-5 min", "Identity Support",
    "When you talk about that, you sound calm. That seems like something you cared about.",
    ["Reflect who they are, not what they remember",
     "Acknowledge emotions",
     "Let them respond or sit quietly",
     "This minute is crucial"]⟩,
   ⟨"Gentle Presence", "5-6 min", "No Performance Required",
    "We can stay here with that feeling for a moment. It" ++ apos ++ "s okay to rest.",
    ["Silence is allowed",
     "No pressure to speak",
     "If tired, validate that",
     "Presence over conversation"]⟩,
   ⟨"Consistent Closing", "6-7 min", "Trust & Continuity",
    "Thank you for spending this time with me. I" ++ apos ++ "ll visit you again tomorrow.",
    ["Always the same closing",
     "No recap",
     "No instruction",
     "No " ++ apos ++ "goodbye forever" ++ apos,
     "Promise return"]⟩]

/-- Classify one already-stripped, non-empty line, following the if/elif
chain in `_parse_conversation` (the `elif to-colon in line` guard is the
`some` case of `splitFirstChar`, which finds the first colon exactly when
the line contains one). -/
def parseLine (caregiver_name patient_name line : String) : Turn :=
  if pyStartsWith (pyLower line) (pyLower caregiver_name ++ ":") then
    let text := pyStrip (strDrop line (caregiver_name.length + 1))
    ⟨"caregiver", text, pyLower text⟩
  else if pyStartsWith (pyLower line) (pyLower patient_name ++ ":") then
    let text := pyStrip (strDrop line (patient_name.length + 1))
    ⟨"patient", text, pyLower text⟩
  else
    match splitFirstChar ':' line.data with
    | some (before, after) =>
      let speaker_text := pyLower (pyStrip (String.mk before))
      let speaker :=
        if pyContains speaker_text "caregiver" || pyContains speaker_text "family" then
          "caregiver"
        else if pyContains speaker_text "patient" || pyContains speaker_text "elder" then
          "patient"
        else
          "unknown"
      let text := pyStrip (String.mk after)
      ⟨speaker, text, pyLower text⟩
    | none =>
      ⟨"unknown", line, pyLower line⟩

/-- The loop body of `_parse_conversation`: strip the line, skip it when
empty, otherwise append its parsed turn. -/
def parseStep (caregiver_name patient_name : String) (turns : List Turn) (rawLine : String) :
    List Turn :=
  let line := pyStrip rawLine
  if line == "" then turns
  else turns ++ [parseLine caregiver_name patient_name line]

/-- Embedding of `ConversationAnalyzer._parse_conversation`: strip the
transcript, split on newlines, and loop over the lines accumulating one
turn per non-empty stripped line. -/
def parse_conversation (conversation_text caregiver_name patient_name : String) : List Turn :=
  let lines := pySplitChar '\n' (pyStrip conversation_text)
  lines.foldl (parseStep caregiver_name patient_name) []

/-- The caregiver-turn filter used throughout the analyzer. -/
def caregiverTurns (turns : List Turn) : List Turn :=
  turns.filter (fun t => t.speaker == "caregiver")

/-- Placeholder turn for total head/last access on lists the source only
indexes when non-empty. -/
def defaultTurn : Turn := ⟨"", "", ""⟩

/-- Greeting tokens checked by `_score_ritual_consistency`. -/
def greeting_words : List String := ["good morning", "good afternoon", "hello", "hi"]

/-- Structure tokens checked by `_score_ritual_consistency`. -/
def structure_words : List String := ["today", "time for", "visit", "together"]

/-- Closing tokens checked by `_score_ritual_consistency`. -/
def closing_words : List String := ["thank you", "see you", "tomorrow", "next time"]

/-- Embedding of `_score_ritual_consistency`: base 0.7, ±0.1 for greeting
in the first caregiver turn, +0.1 for a structure token in the first
three caregiver turns, ±0.1 for a closing token in the last caregiver
turn (the source's inner `if caregiver_turns:` guard is vacuous in the
non-empty branch), clamped into [0,1]. -/
def score_ritual_consistency (caregiver_turns : List Turn) : ScoreResult :=
  if caregiver_turns.isEmpty then
    ⟨0, ["No caregiver statements detected"]⟩
  else
    let first_turn := (caregiver_turns.headD defaultTurn).text_lower
    let score : ℚ := mkRat 7 10
    let hasGreeting := greeting_words.any (fun w => pyContains first_turn w)
    let score := if hasGreeting then qAdd score (mkRat 1 10) else qSub score (mkRat 1 10)
    let evidence :=
      if hasGreeting then ["✓ Started with a greeting"] else ["✗ Missing greeting at start"]
    let hasStructure :=
      (caregiver_turns.take 3).any (fun t => structure_words.any (fun w => pyContains t.text_lower w))
    let score := if hasStructure then qAdd score (mkRat 1 10) else score
    let evidence := if hasStructure then evidence ++ ["✓ Used structure words early"] else evidence
    let last_turn := (caregiver_turns.getLastD defaultTurn).text_lower
    let hasClosing := closing_words.any (fun w => pyContains last_turn w)
    let score := if hasClosing then qAdd score (mkRat 1 10) else qSub score (mkRat 1 10)
    let evidence :=
      if hasClosing then evidence ++ ["✓ Included proper closing"]
      else evidence ++ ["✗ Missing clear closing"]
    ⟨pyMin 1 (pyMax 0 score), evidence⟩

/-- Validation phrases checked by `_score_emotional_validation`. -/
def validation_phrases : List String :=
  ["i understand", "that sounds", "i hear you", "that must",
   "it seems", "you feel", "that" ++ apos ++ "s important", "i can see"]

/-- Correction/testing phrases checked by `_score_emotional_validation`. -/
def correction_phrases : List String :=
  ["no, actually", "that" ++ apos ++ "s not right", "remember when",
   "don" ++ apos ++ "t you remember", "try to remember", "you forgot",
   "that" ++ apos ++ "s wrong", "no, it was"]

/-- Embedding of `_score_emotional_validation` (the `all_turns` argument
is accepted and unused, as in the source): base 0.7, validation bonus
`min(0.2, count*0.1)` or −0.15 penalty, correction penalty
`min(0.3, count*0.15)` or +0.1 bonus, clamped into [0,1]. -/
def score_emotional_validation (caregiver_turns all_turns : List Turn) : ScoreResult :=
  let score : ℚ := mkRat 7 10
  let validation_count :=
    caregiver_turns.countP (fun t => validation_phrases.any (fun p => pyContains t.text_lower p))
  let score :=
    if validation_count > 0 then qAdd score (pyMin (mkRat 1 5) (qMul (qOfNat validation_count) (mkRat 1 10)))
    else qSub score (mkRat 3 20)
  let evidence :=
    if validation_count > 0 then
      ["✓ Used " ++ toString validation_count ++ " validation phrase(s)"]
    else ["✗ No emotional validation detected"]
  let correction_count :=
    caregiver_turns.countP (fun t => correction_phrases.any (fun p => pyContains t.text_lower p))
  let score :=
    if correction_count > 0 then qSub score (pyMin (mkRat 3 10) (qMul (qOfNat correction_count) (mkRat 3 20)))
    else qAdd score (mkRat 1 10)
  let evidence :=
    if correction_count > 0 then
      evidence ++ ["✗ Corrected or tested " ++ toString correction_count ++ " time(s) - AVOID THIS"]
    else evidence ++ ["✓ Did not correct or test memory"]
  ⟨pyMin 1 (pyMax 0 score), evidence⟩

/-- The `\b`-delimited testing patterns scanned by `_score_no_pressure`. -/
def testing_patterns : List String :=
  ["do you remember", "what year", "who was", "when did", "try to", "can you recall"]

/-- Does a turn match any testing pattern?  The source's inner loop
breaks after the first matching pattern, so each turn counts at most
once. -/
def turnMatchesTesting (t : Turn) : Bool :=
  testing_patterns.any (fun p => reSearchWB p t.text_lower)

/-- Gentle-invitation phrases checked by `_score_no_pressure`. -/
def invitation_phrases : List String :=
  ["if you" ++ apos ++ "d like", "would you like", "we can", "it" ++ apos ++ "s okay",
   "no need to", "take your time", "when you" ++ apos ++ "re ready"]

/-- Embedding of `_score_no_pressure`: base 0.8, testing penalty
`min(0.4, count*0.15)` or +0.1 bonus, invitation bonus
`min(0.15, count*0.05)`, clamped into [0,1]. -/
def score_no_pressure (caregiver_turns : List Turn) : ScoreResult :=
  let score : ℚ := mkRat 4 5
  let testing_count := caregiver_turns.countP turnMatchesTesting
  let score :=
    if testing_count > 0 then qSub score (pyMin (mkRat 2 5) (qMul (qOfNat testing_count) (mkRat 3 20)))
    else qAdd score (mkRat 1 10)
  let evidence :=
    if testing_count > 0 then
      ["✗ Asked " ++ toString testing_count ++ " testing question(s) - AVOID THIS"]
    else ["✓ No testing or memory quizzes"]
  let invitation_count :=
    caregiver_turns.countP (fun t => invitation_phrases.any (fun p => pyContains t.text_lower p))
  let score :=
    if invitation_count > 0 then qAdd score (pyMin (mkRat 3 20) (qMul (qOfNat invitation_count) (mkRat 1 20)))
    else score
  let evidence :=
    if invitation_count > 0 then
      evidence ++ ["✓ Used " ++ toString invitation_count ++ " gentle invitation(s)"]
    else evidence
  ⟨pyMin 1 (pyMax 0 score), evidence⟩

/-- Word count of a turn's raw text, Python `len(text.split())`. -/
def wordCount (s : String) : Nat := (pyWords s).length

/-- One-decimal rendering of a non-negative rational, modelling the
`:.1f` formatting used in the brevity evidence strings. -/
def fmt1 (q : ℚ) : String :=
  let n := (Rat.floor (qAdd (qMul q (qOfNat 10)) (mkRat 1 2))).toNat
  toString (n / 10) ++ "." ++ toString (n % 10)

/-- Embedding of `_score_brevity_structure`: base 0.7, average-words
bonus/penalty (≤12: +0.2, ≤18: +0.1, else −0.1), over-25-words penalty
`min(0.2, count*0.05)` or +0.1 bonus, clamped into [0,1].  Zero caregiver
turns short-circuit to score 0 with empty evidence. -/
def score_brevity_structure (caregiver_turns : List Turn) : ScoreResult :=
  if caregiver_turns.isEmpty then
    ⟨0, []⟩
  else
    let score : ℚ := mkRat 7 10
    let total_words := (caregiver_turns.map (fun t => wordCount t.text)).sum
    let avg_words : ℚ := qDiv (qOfNat total_words) (qOfNat caregiver_turns.length)
    let score :=
      if avg_words ≤ qOfNat 12 then qAdd score (mkRat 1 5)
      else if avg_words ≤ qOfNat 18 then qAdd score (mkRat 1 10)
      else qSub score (mkRat 1 10)
    let evidence :=
      if avg_words ≤ qOfNat 12 then
        ["✓ Average " ++ fmt1 avg_words ++ " words per statement (ideal: ≤12)"]
      else if avg_words ≤ qOfNat 18 then
        ["◐ Average " ++ fmt1 avg_words ++ " words per statement (acceptable: ≤18)"]
      else
        ["✗ Average " ++ fmt1 avg_words ++ " words per statement (too long: >18)"]
    let long_statements := caregiver_turns.filter (fun t => wordCount t.text > 25)
    let score :=
      if !long_statements.isEmpty then qSub score (pyMin (mkRat 1 5) (qMul (qOfNat long_statements.length) (mkRat 1 20)))
      else qAdd score (mkRat 1 10)
    let evidence :=
      if !long_statements.isEmpty then
        evidence ++ ["✗ " ++ toString long_statements.length ++ " statement(s) over 25 words - break these up"]
      else evidence ++ ["✓ All statements appropriately sized"]
    ⟨pyMin 1 (pyMax 0 score), evidence⟩

/-- Embedding of `_score_principle`: filter caregiver turns and dispatch
on the principle key, with the source's 0.5 fallback for unknown keys
(the `stage` argument is accepted and unused, as in the source). -/
def score_principle (turns : List Turn) (principle stage : String) : ScoreResult :=
  let caregiver_turns := caregiverTurns turns
  if principle == "ritual_over_stimulation" then score_ritual_consistency caregiver_turns
  else if principle == "emotion_over_accuracy" then score_emotional_validation caregiver_turns turns
  else if principle == "presence_over_performance" then score_no_pressure caregiver_turns
  else if principle == "short_steady_repeatable" then score_brevity_structure caregiver_turns
  else ⟨mkRat 1 2, []⟩

/-- One violation record produced by `_detect_violations`. -/
structure Violation where
  severity : String
  type : String
  turn_number : Nat
  text : String
  issue : String
  correction : String
deriving DecidableEq, Repr

/-- Memory-testing phrases checked by `_detect_violations`. -/
def memory_testing_phrases : List String :=
  ["do you remember", "try to remember", "don" ++ apos ++ "t you remember"]

/-- Correction phrases checked by `_detect_violations`. -/
def correction_violation_phrases : List String :=
  ["no, actually", "that" ++ apos ++ "s not right", "that" ++ apos ++ "s wrong"]

/-- The memory-testing violation record of `_detect_violations` for the
caregiver turn at (0-based) index `i`. -/
def memory_testing_violation (i : Nat) (t : Turn) : Violation :=
  ⟨"high", "memory_testing", i + 1, strTake t.text 100,
   "Testing memory creates anxiety and shame",
   "Instead ask: " ++ apos ++ "What did you like about that?" ++ apos ++
     " or " ++ apos ++ "Tell me more about that" ++ apos⟩

/-- The correction violation record of `_detect_violations`. -/
def correction_violation (i : Nat) (t : Turn) : Violation :=
  ⟨"high", "correction", i + 1, strTake t.text 100,
   "Correcting creates conflict and distress",
   "Validate their emotion: " ++ apos ++ "That sounds important to you" ++ apos ++
     " or " ++ apos ++ "I can see why you" ++ apos ++ "d think that" ++ apos⟩

/-- The too-many-choices violation record of `_detect_violations`. -/
def too_many_choices_violation (i : Nat) (t : Turn) : Violation :=
  ⟨"medium", "too_many_choices", i + 1, strTake t.text 100,
   "Multiple choices increase confusion",
   "Simplify to one option or no choice: " ++ apos ++ "It" ++ apos ++ "s time for lunch" ++
     apos ++ " vs " ++ apos ++ "Do you want lunch now or later?" ++ apos⟩

/-- The too-many-questions violation record of `_detect_violations`. -/
def too_many_questions_violation (i : Nat) (t : Turn) : Violation :=
  ⟨"medium", "too_many_questions", i + 1, strTake t.text 100,
   "Multiple questions create pressure",
   "One question at a time, or statements instead: " ++ apos ++
     "I" ++ apos ++ "m curious about your garden" ++ apos ++
     " vs asking multiple garden questions"⟩

/-- The violations contributed by one caregiver turn at (0-based) index
`i`, in the check order of `_detect_violations`: memory testing,
correction, too many choices (substring count of "or" ≥ 2), rapid
questions (count of "?" ≥ 3).  Checks are independent; a single turn can
contribute several records. -/
def turnViolations (i : Nat) (turn : Turn) : List Violation :=
  (if memory_testing_phrases.any (fun p => pyContains turn.text_lower p) then
    [memory_testing_violation i turn]
   else [])
  ++ (if correction_violation_phrases.any (fun p => pyContains turn.text_lower p) then
    [correction_violation i turn]
   else [])
  ++ (if 2 ≤ pyCount turn.text_lower "or" then
    [too_many_choices_violation i turn]
   else [])
  ++ (if 3 ≤ pyCount turn.text_lower "?" then
    [too_many_questions_violation i turn]
   else [])

/-- The `for i, turn in enumerate(caregiver_turns)` loop of
`_detect_violations`, carrying the running index. -/
def detectAux (i : Nat) : List Turn → List Violation
  | [] => []
  | t :: rest => turnViolations i t ++ detectAux (i + 1) rest

/-- Embedding of `_detect_violations` (the `stage` argument is accepted
and unused, as in the source). -/
def detect_violations (turns : List Turn) (stage : String) : List Violation :=
  detectAux 0 (caregiverTurns turns)

/-- Validation phrases checked by `_identify_strengths`. -/
def strength_validation_phrases : List String :=
  ["that sounds", "i understand", "i hear you"]

/-- Presence phrases checked by `_identify_strengths`. -/
def presence_phrases : List String :=
  ["i" ++ apos ++ "m here", "together", "with you"]

/-- Embedding of `_identify_strengths`.  The source's first loop appends
once and breaks, i.e. it checks whether any caregiver turn matches; the
final `list(set(...))` has unspecified order in Python and is modelled as
duplicate removal (`stage` is accepted and unused, as in the source). -/
def identify_strengths (turns : List Turn) (stage : String) : List String :=
  let caregiver_turns := caregiverTurns turns
  let s1 :=
    if caregiver_turns.any (fun t => strength_validation_phrases.any (fun p => pyContains t.text_lower p)) then
      ["Used emotional validation"]
    else []
  let s2 :=
    if caregiver_turns.any (fun t => pyContains t.text_lower "take your time") then
      ["Gave permission to go slow"]
    else []
  let testing_found :=
    caregiver_turns.any (fun t => pyContains t.text_lower "remember" && pyContains t.text "?")
  let s3 := if !testing_found then ["Avoided testing memory"] else []
  let short_statements := caregiver_turns.filter (fun t => wordCount t.text ≤ 12)
  let s4 :=
    if (if !caregiver_turns.isEmpty then
          decide (mkRat 7 10 < qDiv (qOfNat short_statements.length) (qOfNat caregiver_turns.length))
        else false) then
      ["Kept statements short and clear"]
    else []
  let s5 :=
    if caregiver_turns.any (fun t => presence_phrases.any (fun p => pyContains t.text_lower p)) then
      ["Emphasized presence and togetherness"]
    else []
  (s1 ++ s2 ++ s3 ++ s4 ++ s5).dedup

/-- One recommendation record produced by `_generate_recommendations`. -/
structure Recommendation where
  priority : String
  category : String
  title : String
  description : String
  action : String
  example_text : String
deriving DecidableEq, Repr

/-- The fixed critical recommendation inserted first when a high-severity
violation exists. -/
def stop_testing_memory_rec : Recommendation :=
  ⟨"immediate", "critical", "Stop Testing Memory",
   "Asking " ++ apos ++ "Do you remember?" ++ apos ++
     " creates anxiety. Memory loss is the core symptom—testing it causes shame.",
   "Replace memory questions with feeling questions: " ++ apos ++
     "What did you enjoy about that?" ++ apos ++ " or " ++ apos ++
     "How did that make you feel?" ++ apos,
   "Instead of " ++ apos ++ "Do you remember our trip?" ++ apos ++ " say " ++ apos ++
     "I was thinking about our trip. You seemed happy then." ++ apos⟩

/-- The early-stage recommendation of `_generate_recommendations`. -/
def early_stage_rec : Recommendation :=
  ⟨"high", "stage_specific", "Early Stage: Affirm Competence",
   "In early dementia, the person is very aware of their losses. Avoid any framing around " ++
     apos ++ "memory improvement" ++ apos ++ " or " ++ apos ++ "cognitive exercises." ++ apos,
   "Frame interactions as social visits, not therapy. Normalize difficulty: " ++ apos ++
     "Everyone has trouble with names sometimes." ++ apos,
   apos ++ "This is just a quiet visit" ++ apos ++ " not " ++ apos ++
     "Let" ++ apos ++ "s work on your memory today" ++ apos⟩

/-- The moderate-stage recommendation of `_generate_recommendations`. -/
def moderate_stage_rec : Recommendation :=
  ⟨"high", "stage_specific", "Moderate Stage: Rhythm & Repetition",
   "At this stage, ritual matters more than conversation quality. Same time, same words, same structure.",
   "Use the exact same opening and closing every visit. Repeat favorite topics often—repetition is success.",
   "Same greeting daily: " ++ apos ++ "Good morning, [Name]. It" ++ apos ++
     "s time for our visit. I" ++ apos ++ "m here with you." ++ apos⟩

/-- The late-stage recommendation of `_generate_recommendations`. -/
def late_stage_rec : Recommendation :=
  ⟨"high", "stage_specific", "Late Stage: Presence Over Words",
   "Language may be minimal. Your tone and presence matter more than words. Very short sessions (3-5 min).",
   "Reduce questions. Use more statements. Accept long silences. Focus on calming the nervous system.",
   apos ++ "You" ++ apos ++ "re not alone. I" ++ apos ++ "m here." ++ apos ++
     " Then sit quietly together."⟩

/-- The generic fallback recommendation of `_generate_recommendations`. -/
def structure_your_visit_rec : Recommendation :=
  ⟨"medium", "improvement", "Structure Your Visit",
   "Follow the ideal 7-minute structure: Arrival → Orientation → Familiar Thread → Reflection → Presence → Closing",
   "Each phase has a purpose. Don" ++ apos ++ "t rush. Silence is okay. Repetition tomorrow is expected.",
   "See the full 7-minute ideal session script for details."⟩

/-- The canned remediation for a low `ritual_over_stimulation` score. -/
def ritual_principle_rec : Recommendation :=
  ⟨"high", "structure", "Create Predictable Ritual",
   "Novelty increases anxiety in dementia. Use the same words, same time, same structure every visit.",
   "Write a script for your opening and closing. Use it every time, word-for-word.",
   "Opening: " ++ apos ++ "Good morning, [Name]. It" ++ apos ++ "s time for our visit. I" ++
     apos ++ "m here with you." ++ apos ++ " Closing: " ++ apos ++
     "Thank you for this time. I" ++ apos ++ "ll see you tomorrow." ++ apos⟩

/-- The canned remediation for a low `emotion_over_accuracy` score. -/
def emotion_principle_rec : Recommendation :=
  ⟨"immediate", "communication", "Validate Feelings, Not Facts",
   "Correcting their reality creates conflict. Their emotions are always valid, even if facts aren" ++
     apos ++ "t.",
   "When they say something incorrect, respond to the feeling behind it instead of correcting.",
   "If they say " ++ apos ++ "I need to pick up the kids" ++ apos ++ " (who are grown), say: " ++
     apos ++ "You" ++ apos ++ "re a caring parent" ++ apos ++ " not " ++ apos ++
     "Your kids are adults now." ++ apos⟩

/-- The canned remediation for a low `presence_over_performance` score. -/
def presence_principle_rec : Recommendation :=
  ⟨"high", "approach", "Remove All Pressure",
   "Never ask them to remember, perform, or succeed. Your presence is the gift.",
   "Replace questions with statements. Give permission to rest. Accept silence.",
   apos ++ "We can just sit together" ++ apos ++ " not " ++ apos ++
     "Can you tell me about...?" ++ apos ++ " Silence is companionship."⟩

/-- The canned remediation for a low `short_steady_repeatable` score. -/
def brevity_principle_rec : Recommendation :=
  ⟨"medium", "structure", "Keep It Brief",
   "Short visits prevent fatigue. Better to return daily than overwhelm today.",
   "Aim for 5-7 minutes. Use short sentences (10-12 words max). One idea per sentence.",
   apos ++ "I" ++ apos ++ "m here with you." ++ apos ++ " (pause) " ++ apos ++
     "Today is calm." ++ apos ++ " (pause) Not: " ++ apos ++
     "I" ++ apos ++ "m here with you today and wanted to see how you" ++ apos ++
     "re doing and talk about the garden..." ++ apos⟩

/-- Embedding of `_get_principle_recommendation`: the dict lookup keyed
by principle (`stage` is accepted and unused, as in the source). -/
def get_principle_recommendation (principle stage : String) : Option Recommendation :=
  if principle == "ritual_over_stimulation" then some ritual_principle_rec
  else if principle == "emotion_over_accuracy" then some emotion_principle_rec
  else if principle == "presence_over_performance" then some presence_principle_rec
  else if principle == "short_steady_repeatable" then some brevity_principle_rec
  else none

/-- The four principle scores, one field per key of
`CarePhilosophy.PRINCIPLES`. -/
structure PrincipleScores where
  ritual_over_stimulation : ScoreResult
  emotion_over_accuracy : ScoreResult
  presence_over_performance : ScoreResult
  short_steady_repeatable : ScoreResult
deriving DecidableEq, Repr

/-- The `(key, score)` pairs of a `PrincipleScores` dict in its insertion
order (the `PRINCIPLES` key order). -/
def principleScoresList (ps : PrincipleScores) : List (String × ScoreResult) :=
  [("ritual_over_stimulation", ps.ritual_over_stimulation),
   ("emotion_over_accuracy", ps.emotion_over_accuracy),
   ("presence_over_performance", ps.presence_over_performance),
   ("short_steady_repeatable", ps.short_steady_repeatable)]

/-- The `for principle, score_data in scores.items()` loop of
`_generate_recommendations`: the canned remediation of every principle
scoring below 0.6, in dict order. -/
def principleRecsOf (scores : PrincipleScores) (stage : String) : List Recommendation :=
  (principleScoresList scores).filterMap
    (fun kv => if kv.2.score < mkRat 3 5 then get_principle_recommendation kv.1 stage else none)

/-- Embedding of `_generate_recommendations`: principle remediations for
scores < 0.6, a critical recommendation inserted first when a
high-severity violation exists, the stage-specific recommendation for
early/moderate/late, and the generic fallback only when the list would
otherwise be empty. -/
def generate_recommendations (turns : List Turn) (scores : PrincipleScores)
    (violations : List Violation) (stage : String) : List Recommendation :=
  let recommendations := principleRecsOf scores stage
  let recommendations :=
    if violations.isEmpty then recommendations
    else if (violations.filter (fun v => v.severity == "high")).isEmpty then recommendations
    else stop_testing_memory_rec :: recommendations
  let recommendations :=
    if stage == "early" then recommendations ++ [early_stage_rec]
    else if stage == "moderate" then recommendations ++ [moderate_stage_rec]
    else if stage == "late" then recommendations ++ [late_stage_rec]
    else recommendations
  if recommendations.isEmpty then recommendations ++ [structure_your_visit_rec]
  else recommendations

/-- The weight lookup `PRINCIPLES[principle_key]["weight"]` (total for
the four keys actually used). -/
def weightOf (key : String) : ℚ :=
  ((PRINCIPLES.lookup key).map PrincipleInfo.weight).getD 0

/-- Embedding of `_calculate_overall_score`: fold the weighted scores in
dict order and round to 2 decimals. -/
def calculate_overall_score (principle_scores : PrincipleScores) : ℚ :=
  round2 ((principleScoresList principle_scores).foldl
    (fun total kv => qAdd total (qMul kv.2.score (weightOf kv.1))) 0)

/-- Embedding of `_score_to_grade`. -/
def score_to_grade (score : ℚ) : String :=
  if score ≥ mkRat 9 10 then "A"
  else if score ≥ mkRat 4 5 then "B"
  else if score ≥ mkRat 7 10 then "C"
  else if score ≥ mkRat 3 5 then "D"
  else "F"

/-- An entry of the `missing_phases` list: the zero-caregiver-turn branch
of `_analyze_phases` puts the six full phase configuration dicts there,
while the main branch puts phase name strings. -/
inductive PhaseItem where
  | name (s : String)
  | config (p : PhaseConfig)
deriving DecidableEq, Repr

/-- The result dict of `_analyze_phases`; `phase_count` is absent
(`none`) in the zero-caregiver-turn branch. -/
structure PhaseAnalysis where
  follows_structure : Bool
  detected_phases : List String
  missing_phases : List PhaseItem
  phase_count : Option Nat
deriving DecidableEq, Repr

/-- Arrival tokens checked by `_analyze_phases`. -/
def arrival_words : List String := ["good morning", "good afternoon", "hello", "time for"]

/-- Orientation tokens checked by `_analyze_phases`. -/
def orientation_words : List String := ["today", "at home", "okay", "calm"]

/-- Familiar-thread tokens checked by `_analyze_phases`. -/
def thread_words : List String := ["like", "enjoy", "loved", "always"]

/-- Emotional-reflection tokens checked by `_analyze_phases`. -/
def reflection_words : List String := ["sound", "seem", "feel", "care"]

/-- Closing tokens checked by `_analyze_phases`. -/
def closing_phase_words : List String := ["thank you", "tomorrow", "next time", "see you"]

/-- Embedding of `_analyze_phases`.  Five detectors append phase names in
canonical order ("Gentle Presence" has no detector); `follows_structure`
is `len(detected) >= 4`.  With zero caregiver turns the source returns
the full phase dicts as `missing_phases` and omits `phase_count`. -/
def analyze_phases (turns : List Turn) : PhaseAnalysis :=
  let caregiver_turns := caregiverTurns turns
  if caregiver_turns.isEmpty then
    ⟨false, [], IDEAL_SESSION_phases.map PhaseItem.config, none⟩
  else
    let first_text := (caregiver_turns.headD defaultTurn).text_lower
    let d1 := if arrival_words.any (fun w => pyContains first_text w) then ["Arrival"] else []
    let d2 :=
      if (caregiver_turns.take 3).any (fun t => orientation_words.any (fun w => pyContains t.text_lower w)) then
        ["Gentle Orientation"]
      else []
    let d3 :=
      if caregiver_turns.any (fun t =>
          pyContains t.text_lower "you" && thread_words.any (fun w => pyContains t.text_lower w)) then
        ["Familiar Thread"]
      else []
    let d4 :=
      if caregiver_turns.any (fun t => reflection_words.any (fun w => pyContains t.text_lower w)) then
        ["Emotional Reflection"]
      else []
    let last_text := (caregiver_turns.getLastD defaultTurn).text_lower
    let d5 :=
      if closing_phase_words.any (fun w => pyContains last_text w) then ["Consistent Closing"]
      else []
    let detected_phases := d1 ++ d2 ++ d3 ++ d4 ++ d5
    let all_phase_names := IDEAL_SESSION_phases.map PhaseConfig.name
    let missing_phases := all_phase_names.filter (fun p => !(detected_phases.contains p))
    ⟨decide (detected_phases.length ≥ 4), detected_phases,
     missing_phases.map PhaseItem.name, some detected_phases.length⟩

/-- The result dict of `analyze_conversation`. -/
structure AnalysisResult where
  overall_score : ℚ
  grade : String
  principle_scores : PrincipleScores
  violations : List Violation
  strengths : List String
  recommendations : List Recommendation
  phase_analysis : PhaseAnalysis
  turn_count : Nat
  conversation_length : Nat
  dementia_stage : String
deriving DecidableEq, Repr

/-- Embedding of `ConversationAnalyzer.analyze_conversation`: parse the
transcript, score each principle in `PRINCIPLES` order, detect
violations and strengths, generate recommendations, compute the overall
score and grade, and analyze phases. -/
def analyze_conversation (conversation_text caregiver_name patient_name : String)
    (dementia_stage : String := "moderate") : AnalysisResult :=
  let turns := parse_conversation conversation_text caregiver_name patient_name
  let principle_scores : PrincipleScores :=
    ⟨score_principle turns "ritual_over_stimulation" dementia_stage,
     score_principle turns "emotion_over_accuracy" dementia_stage,
     score_principle turns "presence_over_performance" dementia_stage,
     score_principle turns "short_steady_repeatable" dementia_stage⟩
  let violations := detect_violations turns dementia_stage
  let strengths := identify_strengths turns dementia_stage
  let recommendations := generate_recommendations turns principle_scores violations dementia_stage
  let overall_score := calculate_overall_score principle_scores
  let phase_analysis := analyze_phases turns
  ⟨overall_score, score_to_grade overall_score, principle_scores, violations, strengths,
   recommendations, phase_analysis, turns.length, conversation_text.length, dementia_stage⟩

/-- Speaker classification and turn construction written after the
claim's own wording for the turn parser: (a) case-insensitive prefix
match on `"<caregiver_name>:"` or `"<patient_name>:"`; (b) otherwise, if
the line has a `:`, the label before the first `:` classifies as
caregiver when it contains "caregiver"/"family", patient when it
contains "patient"/"elder", else unknown; (c) otherwise the whole line
is unknown-speaker text. -/
def parseLineSpec (caregiver_name patient_name line : String) : Turn :=
  if pyStartsWith (pyLower line) (pyLower caregiver_name ++ ":") then
    let text := pyStrip (strDrop line (caregiver_name.length + 1))
    ⟨"caregiver", text, pyLower text⟩
  else if pyStartsWith (pyLower line) (pyLower patient_name ++ ":") then
    let text := pyStrip (strDrop line (patient_name.length + 1))
    ⟨"patient", text, pyLower text⟩
  else if pyContains line ":" then
    let label := pyLower (pyStrip (String.mk (line.data.takeWhile (fun c => !(c == ':')))))
    let speaker :=
      if pyContains label "caregiver" || pyContains label "family" then "caregiver"
      else if pyContains label "patient" || pyContains label "elder" then "patient"
      else "unknown"
    let text := pyStrip (String.mk ((line.data.dropWhile (fun c => !(c == ':'))).tail))
    ⟨speaker, text, pyLower text⟩
  else
    ⟨"unknown", line, pyLower line⟩

/-- The non-empty stripped lines of a transcript, in original order. -/
def nonEmptyLines (text : String) : List String :=
  ((pySplitChar '\n' (pyStrip text)).map pyStrip).filter (fun l => l ≠ "")

/-- The turn parser as the claim describes it: one turn per non-empty
line, in order, classified by `parseLineSpec`. -/
def parse_conversation_spec (text caregiver_name patient_name : String) : List Turn :=
  (nonEmptyLines text).map (parseLineSpec caregiver_name patient_name)

/-- The stage-specific recommendation selected for a valid stage. -/
def stageRecOf (stage : String) : Recommendation :=
  if stage == "early" then early_stage_rec
  else if stage == "moderate" then moderate_stage_rec
  else late_stage_rec

/-
Theorems.
-/

theorem qAdd_eq (a b : ℚ) : qAdd a b = a + b := (Rat.add_def' a b).symm

theorem qSub_eq (a b : ℚ) : qSub a b = a - b := by
  rw [qSub, Rat.sub_def, Rat.normalize_eq_mkRat]

theorem qMul_eq (a b : ℚ) : qMul a b = a * b := by
  rw [qMul, Rat.mul_def, Rat.normalize_eq_mkRat]

theorem qDiv_eq (a b : ℚ) : qDiv a b = a / b := (Rat.div_def' a b).symm

theorem qOfNat_eq (n : Nat) : qOfNat n = (n : ℚ) := by
  rw [qOfNat]
  simp [Rat.mkRat_one]

theorem ratFloor_eq (q : ℚ) : Rat.floor q = ⌊q⌋ := by
  rw [Rat.floor_def, Rat.floor_def']

theorem round2_eq (q : ℚ) : round2 q = ((⌊q * 100 + 1 / 2⌋ : ℤ) : ℚ) / 100 := by
  rw [round2, qAdd_eq, qMul_eq, qOfNat_eq, ratFloor_eq]
  rw [Rat.mkRat_eq_div]
  norm_num

theorem pyMin_eq (a b : ℚ) : pyMin a b = min a b := by
  rw [pyMin, min_def]

theorem pyMax_eq (a b : ℚ) : pyMax a b = max a b := by
  rw [pyMax, max_def]

















example : pyStrip "  hi there \n" = "hi there" := by decide
example : pyCount "i wore your formal coat" "or" = 2 := by decide
example : literalWordCount "or" "i wore your formal coat" = 0 := by decide
example : literalWordCount "or" "soup or salad or bread" = 2 := by decide
example : reSearchWB "do you remember" "do you remember when we went fishing?" = true := by decide
example : reSearchWB "try to" "country tone" = false := by decide
example : pySplitChar '\n' "a\nb\n" = ["a", "b", ""] := by decide
example : pyWords " one  two  " = ["one", "two"] := by decide
example : round2 (42 / 100 : ℚ) = 42 / 100 := by
  rw [round2_eq]
  norm_num [Int.floor_eq_iff]

/-
Safety classifier — embedding of `SafetyAssessmentTool._run`
(`backend/app/agents/tools.py`, lines 221-299).
-/











example : SafetyAssessmentTool_run "I want to kill myself" = crisis_response := by decide
example : SafetyAssessmentTool_run angry_want_to_die_msg = crisis_response := by decide
example : SafetyAssessmentTool_run scared_cant_breathe_msg = distress_response := by decide
example : SafetyAssessmentTool_run angry_leave_me_alone_msg = monitor_response := by decide
example : SafetyAssessmentTool_run "What a nice day" = clear_response := by decide
example : pyContains crisis_response "988" = true := by decide

/-
Conversation analyzer — embedding of
`backend/app/services/caregiver_training.py`.
-/

example :
    parse_conversation
      ("Sue: Good morning, Mom.\n\nMom: Hello dear.\nfamily member: how are you\njust a stray line")
      "Sue" "Mom" =
    [⟨"caregiver", "Good morning, Mom.", "good morning, mom."⟩,
     ⟨"patient", "Hello dear.", "hello dear."⟩,
     ⟨"caregiver", "how are you", "how are you"⟩,
     ⟨"unknown", "just a stray line", "just a stray line"⟩] := by decide

example : parse_conversation "" "A" "B" = [] := by decide







example : (score_emotional_validation [] []).score = mkRat 13 20 := by decide
example : (score_no_pressure []).score = mkRat 9 10 := by decide
example : (score_ritual_consistency []).score = 0 := by decide
example : (score_brevity_structure []).score = 0 := by decide

example :
    (analyze_conversation "" "A" "B" "moderate").overall_score = mkRat 21 50 := by decide

example : (analyze_conversation "" "A" "B" "moderate").grade = "F" := by decide

/-
Claim theorems.
-/

/-- C1: the safety classifier checks the tiers in strict priority order
with the crisis tier first: any message whose lowercased text contains a
crisis keyword yields the critical/HIGH response, regardless of distress
or agitation keywords also present; in particular the mixed message
"I'm angry and want to die" (which contains the agitation keyword
"angry") classifies as critical, not monitor. -/
theorem claim_C1_crisis_overrides (msg : String)
    (h : ∃ k ∈ crisis_keywords, pyContains (pyLower msg) k = true) :
    SafetyAssessmentTool_run msg = crisis_response ∧
    pyContains crisis_response "CRITICAL" = true ∧
    pyContains crisis_response "Risk Level: HIGH" = true ∧
    SafetyAssessmentTool_run angry_want_to_die_msg = crisis_response ∧
    (∃ k ∈ agitation_keywords, pyContains (pyLower angry_want_to_die_msg) k = true) ∧
    crisis_response ≠ monitor_response := by
  have hb : crisis_keywords.any (fun k => pyContains (pyLower msg) k) = true := by
    rw [List.any_eq_true]
    exact h
  refine ⟨?_, by decide, by decide, by decide, by decide, by decide⟩
  unfold SafetyAssessmentTool_run
  simp only [hb, if_true]

/-- Witness for C1 at the specification's mixed-tier message. -/
theorem claim_C1_witness :
    SafetyAssessmentTool_run angry_want_to_die_msg = crisis_response :=
  (claim_C1_crisis_overrides angry_want_to_die_msg (by decide)).1

/-- C2: the safety classifier is total — every message yields one of the
four fixed responses, and a message matching no keyword of any tier
falls through to the clear/NONE response; the four example messages of
the specification classify as critical (with "988" among the actions),
elevated, monitor and clear respectively. -/
theorem claim_C2_safety_totality :
    (∀ msg : String,
       SafetyAssessmentTool_run msg = crisis_response ∨
       SafetyAssessmentTool_run msg = distress_response ∨
       SafetyAssessmentTool_run msg = monitor_response ∨
       SafetyAssessmentTool_run msg = clear_response) ∧
    (∀ msg : String,
       (∀ k ∈ crisis_keywords ++ distress_keywords ++ agitation_keywords,
          pyContains (pyLower msg) k = false) →
       SafetyAssessmentTool_run msg = clear_response) ∧
    SafetyAssessmentTool_run "I want to kill myself" = crisis_response ∧
    pyContains crisis_response "CRITICAL" = true ∧
    pyContains crisis_response "Risk Level: HIGH" = true ∧
    pyContains crisis_response "988" = true ∧
    SafetyAssessmentTool_run scared_cant_breathe_msg = distress_response ∧
    pyContains distress_response "ELEVATED" = true ∧
    distress_response ≠ crisis_response ∧
    SafetyAssessmentTool_run angry_leave_me_alone_msg = monitor_response ∧
    pyContains monitor_response "MONITOR" = true ∧
    SafetyAssessmentTool_run "What a nice day" = clear_response ∧
    pyContains clear_response "Risk Level: NONE" = true := by
  refine ⟨?_, ?_, by decide, by decide, by decide, by decide, by decide, by decide,
    by decide, by decide, by decide, by decide, by decide⟩
  · intro msg
    unfold SafetyAssessmentTool_run
    dsimp only
    split
    · exact Or.inl rfl
    · split
      · exact Or.inr (Or.inl rfl)
      · split
        · exact Or.inr (Or.inr (Or.inl rfl))
        · exact Or.inr (Or.inr (Or.inr rfl))
  · intro msg h
    have h1 : crisis_keywords.any (fun k => pyContains (pyLower msg) k) = false := by
      rw [List.any_eq_false]
      intro k hk
      simp only [Bool.not_eq_true]
      exact h k (List.mem_append.mpr (Or.inl (List.mem_append.mpr (Or.inl hk))))
    have h2 : distress_keywords.any (fun k => pyContains (pyLower msg) k) = false := by
      rw [List.any_eq_false]
      intro k hk
      simp only [Bool.not_eq_true]
      exact h k (List.mem_append.mpr (Or.inl (List.mem_append.mpr (Or.inr hk))))
    have h3 : agitation_keywords.any (fun k => pyContains (pyLower msg) k) = false := by
      rw [List.any_eq_false]
      intro k hk
      simp only [Bool.not_eq_true]
      exact h k (List.mem_append.mpr (Or.inr hk))
    unfold SafetyAssessmentTool_run
    simp only [h1, h2, h3, if_false, Bool.false_eq_true]

/-- Witness for C2's fall-through clause at the clear example message. -/
theorem claim_C2_witness :
    SafetyAssessmentTool_run "What a nice day" = clear_response :=
  claim_C2_safety_totality.2.1 "What a nice day" (by decide)

theorem clamp01_bounds (x : ℚ) : 0 ≤ pyMin 1 (pyMax 0 x) ∧ pyMin 1 (pyMax 0 x) ≤ 1 := by
  rw [pyMin_eq, pyMax_eq]
  exact ⟨le_min (by norm_num) (le_max_left 0 x), min_le_left 1 _⟩

theorem score_ritual_consistency_bounds (cts : List Turn) :
    0 ≤ (score_ritual_consistency cts).score ∧ (score_ritual_consistency cts).score ≤ 1 := by
  unfold score_ritual_consistency
  split
  · norm_num
  · exact clamp01_bounds _

theorem score_emotional_validation_bounds (cts ats : List Turn) :
    0 ≤ (score_emotional_validation cts ats).score ∧
      (score_emotional_validation cts ats).score ≤ 1 := by
  unfold score_emotional_validation
  exact clamp01_bounds _

theorem score_no_pressure_bounds (cts : List Turn) :
    0 ≤ (score_no_pressure cts).score ∧ (score_no_pressure cts).score ≤ 1 := by
  unfold score_no_pressure
  exact clamp01_bounds _

theorem score_brevity_structure_bounds (cts : List Turn) :
    0 ≤ (score_brevity_structure cts).score ∧ (score_brevity_structure cts).score ≤ 1 := by
  unfold score_brevity_structure
  split
  · norm_num
  · exact clamp01_bounds _

theorem score_principle_ritual (turns : List Turn) (stage : String) :
    score_principle turns "ritual_over_stimulation" stage =
      score_ritual_consistency (caregiverTurns turns) := rfl

theorem score_principle_emotion (turns : List Turn) (stage : String) :
    score_principle turns "emotion_over_accuracy" stage =
      score_emotional_validation (caregiverTurns turns) turns := rfl

theorem score_principle_presence (turns : List Turn) (stage : String) :
    score_principle turns "presence_over_performance" stage =
      score_no_pressure (caregiverTurns turns) := rfl

theorem score_principle_brevity (turns : List Turn) (stage : String) :
    score_principle turns "short_steady_repeatable" stage =
      score_brevity_structure (caregiverTurns turns) := rfl

theorem calculate_overall_eq (ps : PrincipleScores) :
    calculate_overall_score ps =
      round2 (ps.ritual_over_stimulation.score * 0.25 +
        ps.emotion_over_accuracy.score * 0.30 +
        ps.presence_over_performance.score * 0.25 +
        ps.short_steady_repeatable.score * 0.20) := by
  show round2 (qAdd (qAdd (qAdd (qAdd 0 (qMul ps.ritual_over_stimulation.score (mkRat 1 4)))
      (qMul ps.emotion_over_accuracy.score (mkRat 3 10)))
      (qMul ps.presence_over_performance.score (mkRat 1 4)))
      (qMul ps.short_steady_repeatable.score (mkRat 1 5))) = _
  simp only [qAdd_eq, qMul_eq]
  congr 1
  rw [Rat.mkRat_eq_div, Rat.mkRat_eq_div, Rat.mkRat_eq_div]
  push_cast
  ring_nf

theorem round2_bounds {q : ℚ} (h0 : 0 ≤ q) (h1 : q ≤ 1) :
    0 ≤ round2 q ∧ round2 q ≤ 1 := by
  rw [round2_eq]
  constructor
  · apply div_nonneg _ (by norm_num)
    have h : (0 : ℤ) ≤ ⌊q * 100 + 1 / 2⌋ := Int.floor_nonneg.mpr (by linarith)
    exact_mod_cast h
  · rw [div_le_one (by norm_num)]
    have h2 : ⌊q * 100 + 1 / 2⌋ ≤ ⌊(201 : ℚ) / 2⌋ := Int.floor_le_floor (by linarith)
    have h3 : ⌊(201 : ℚ) / 2⌋ = 100 := by
      rw [Int.floor_eq_iff]
      norm_num
    rw [h3] at h2
    exact_mod_cast h2

theorem score_to_grade_iff (s : ℚ) :
    (score_to_grade s = "A" ↔ (0.90 : ℚ) ≤ s) ∧
    (score_to_grade s = "B" ↔ ((0.80 : ℚ) ≤ s ∧ s < 0.90)) ∧
    (score_to_grade s = "C" ↔ ((0.70 : ℚ) ≤ s ∧ s < 0.80)) ∧
    (score_to_grade s = "D" ↔ ((0.60 : ℚ) ≤ s ∧ s < 0.70)) ∧
    (score_to_grade s = "F" ↔ s < (0.60 : ℚ)) := by
  have e9 : (mkRat 9 10 : ℚ) = 0.90 := by rw [Rat.mkRat_eq_div]; norm_num
  have e8 : (mkRat 4 5 : ℚ) = 0.80 := by rw [Rat.mkRat_eq_div]; norm_num
  have e7 : (mkRat 7 10 : ℚ) = 0.70 := by rw [Rat.mkRat_eq_div]; norm_num
  have e6 : (mkRat 3 5 : ℚ) = 0.60 := by rw [Rat.mkRat_eq_div]; norm_num
  unfold score_to_grade
  rw [e9, e8, e7, e6]
  split_ifs with h1 h2 h3 h4 <;> simp_all <;> and_intros <;> (try intro) <;> linarith

/-- C4: for every transcript, the overall score is the weighted sum of
the four principle scores with weights 0.25, 0.30, 0.25, 0.20, rounded
to two decimals; it lies in [0, 1]; and the grade letter corresponds to
the fixed thresholds 0.90/0.80/0.70/0.60. -/
theorem claim_C4_overall_score_and_grade (text cg pt stage : String) :
    (analyze_conversation text cg pt stage).overall_score =
      round2 ((analyze_conversation text cg pt stage).principle_scores.ritual_over_stimulation.score * 0.25 +
        (analyze_conversation text cg pt stage).principle_scores.emotion_over_accuracy.score * 0.30 +
        (analyze_conversation text cg pt stage).principle_scores.presence_over_performance.score * 0.25 +
        (analyze_conversation text cg pt stage).principle_scores.short_steady_repeatable.score * 0.20) ∧
    (0 ≤ (analyze_conversation text cg pt stage).overall_score ∧ (analyze_conversation text cg pt stage).overall_score ≤ 1) ∧
    ((analyze_conversation text cg pt stage).grade = "A" ↔ (0.90 : ℚ) ≤ (analyze_conversation text cg pt stage).overall_score) ∧
    ((analyze_conversation text cg pt stage).grade = "B" ↔ ((0.80 : ℚ) ≤ (analyze_conversation text cg pt stage).overall_score ∧ (analyze_conversation text cg pt stage).overall_score < 0.90)) ∧
    ((analyze_conversation text cg pt stage).grade = "C" ↔ ((0.70 : ℚ) ≤ (analyze_conversation text cg pt stage).overall_score ∧ (analyze_conversation text cg pt stage).overall_score < 0.80)) ∧
    ((analyze_conversation text cg pt stage).grade = "D" ↔ ((0.60 : ℚ) ≤ (analyze_conversation text cg pt stage).overall_score ∧ (analyze_conversation text cg pt stage).overall_score < 0.70)) ∧
    ((analyze_conversation text cg pt stage).grade = "F" ↔ (analyze_conversation text cg pt stage).overall_score < (0.60 : ℚ)) := by
  have hov : (analyze_conversation text cg pt stage).overall_score = calculate_overall_score (analyze_conversation text cg pt stage).principle_scores := rfl
  have hgr : (analyze_conversation text cg pt stage).grade = score_to_grade (analyze_conversation text cg pt stage).overall_score := rfl
  have hb1 : 0 ≤ (analyze_conversation text cg pt stage).principle_scores.ritual_over_stimulation.score ∧
      (analyze_conversation text cg pt stage).principle_scores.ritual_over_stimulation.score ≤ 1 :=
    score_ritual_consistency_bounds (caregiverTurns (parse_conversation text cg pt))
  have hb2 : 0 ≤ (analyze_conversation text cg pt stage).principle_scores.emotion_over_accuracy.score ∧
      (analyze_conversation text cg pt stage).principle_scores.emotion_over_accuracy.score ≤ 1 :=
    score_emotional_validation_bounds (caregiverTurns (parse_conversation text cg pt))
      (parse_conversation text cg pt)
  have hb3 : 0 ≤ (analyze_conversation text cg pt stage).principle_scores.presence_over_performance.score ∧
      (analyze_conversation text cg pt stage).principle_scores.presence_over_performance.score ≤ 1 :=
    score_no_pressure_bounds (caregiverTurns (parse_conversation text cg pt))
  have hb4 : 0 ≤ (analyze_conversation text cg pt stage).principle_scores.short_steady_repeatable.score ∧
      (analyze_conversation text cg pt stage).principle_scores.short_steady_repeatable.score ≤ 1 :=
    score_brevity_structure_bounds (caregiverTurns (parse_conversation text cg pt))
  have heq : (analyze_conversation text cg pt stage).overall_score =
      round2 ((analyze_conversation text cg pt stage).principle_scores.ritual_over_stimulation.score * 0.25 +
        (analyze_conversation text cg pt stage).principle_scores.emotion_over_accuracy.score * 0.30 +
        (analyze_conversation text cg pt stage).principle_scores.presence_over_performance.score * 0.25 +
        (analyze_conversation text cg pt stage).principle_scores.short_steady_repeatable.score * 0.20) := by
    rw [hov]
    exact calculate_overall_eq (analyze_conversation text cg pt stage).principle_scores
  have hbounds : 0 ≤ (analyze_conversation text cg pt stage).overall_score ∧ (analyze_conversation text cg pt stage).overall_score ≤ 1 := by
    rw [heq]
    apply round2_bounds
    · have m1 := mul_nonneg hb1.1 (by norm_num : (0 : ℚ) ≤ 0.25)
      have m2 := mul_nonneg hb2.1 (by norm_num : (0 : ℚ) ≤ 0.30)
      have m3 := mul_nonneg hb3.1 (by norm_num : (0 : ℚ) ≤ 0.25)
      have m4 := mul_nonneg hb4.1 (by norm_num : (0 : ℚ) ≤ 0.20)
      linarith
    · have m1 := mul_le_of_le_one_left (by norm_num : (0 : ℚ) ≤ 0.25) hb1.2
      have m2 := mul_le_of_le_one_left (by norm_num : (0 : ℚ) ≤ 0.30) hb2.2
      have m3 := mul_le_of_le_one_left (by norm_num : (0 : ℚ) ≤ 0.25) hb3.2
      have m4 := mul_le_of_le_one_left (by norm_num : (0 : ℚ) ≤ 0.20) hb4.2
      linarith
  have hg := score_to_grade_iff (analyze_conversation text cg pt stage).overall_score
  rw [← hgr] at hg
  exact ⟨heq, hbounds, hg.1, hg.2.1, hg.2.2.1, hg.2.2.2.1, hg.2.2.2.2⟩

/-- C3: for every transcript, caregiver name, patient name and dementia
stage, each of the four principle sub-scores produced by the analysis
lies in the closed interval [0, 1] — the clamp is applied in every
sub-scorer regardless of the additive adjustments before it. -/
theorem claim_C3_principle_scores_clamped (text cg pt stage : String) :
    (0 ≤ (analyze_conversation text cg pt stage).principle_scores.ritual_over_stimulation.score ∧
       (analyze_conversation text cg pt stage).principle_scores.ritual_over_stimulation.score ≤ 1) ∧
    (0 ≤ (analyze_conversation text cg pt stage).principle_scores.emotion_over_accuracy.score ∧
       (analyze_conversation text cg pt stage).principle_scores.emotion_over_accuracy.score ≤ 1) ∧
    (0 ≤ (analyze_conversation text cg pt stage).principle_scores.presence_over_performance.score ∧
       (analyze_conversation text cg pt stage).principle_scores.presence_over_performance.score ≤ 1) ∧
    (0 ≤ (analyze_conversation text cg pt stage).principle_scores.short_steady_repeatable.score ∧
       (analyze_conversation text cg pt stage).principle_scores.short_steady_repeatable.score ≤ 1) := by
  exact ⟨score_ritual_consistency_bounds (caregiverTurns (parse_conversation text cg pt)),
    score_emotional_validation_bounds (caregiverTurns (parse_conversation text cg pt))
      (parse_conversation text cg pt),
    score_no_pressure_bounds (caregiverTurns (parse_conversation text cg pt)),
    score_brevity_structure_bounds (caregiverTurns (parse_conversation text cg pt))⟩

theorem score_emotional_validation_nil (ats : List Turn) :
    (score_emotional_validation [] ats).score = mkRat 13 20 := rfl

/-- C10: a transcript that parses to zero caregiver turns (the empty
transcript included) scores 0 on ritual and brevity but 0.65 on emotion
(0.7 − 0.15 + 0.1) and 0.9 on presence (0.8 + 0.1), so the overall score
is 0.30·0.65 + 0.25·0.9 = 0.42 with grade "F", not 0. -/
theorem claim_C10_no_caregiver_turns (text cg pt stage : String)
    (h : caregiverTurns (parse_conversation text cg pt) = []) :
    let A := analyze_conversation text cg pt stage
    A.principle_scores.ritual_over_stimulation.score = 0 ∧
    A.principle_scores.short_steady_repeatable.score = 0 ∧
    A.principle_scores.emotion_over_accuracy.score = (0.65 : ℚ) ∧
    A.principle_scores.presence_over_performance.score = (0.9 : ℚ) ∧
    A.overall_score = (0.42 : ℚ) ∧
    A.grade = "F" := by
  intro A
  have e1 : A.principle_scores.ritual_over_stimulation =
      score_ritual_consistency (caregiverTurns (parse_conversation text cg pt)) := rfl
  have e2 : A.principle_scores.short_steady_repeatable =
      score_brevity_structure (caregiverTurns (parse_conversation text cg pt)) := rfl
  have e3 : A.principle_scores.emotion_over_accuracy =
      score_emotional_validation (caregiverTurns (parse_conversation text cg pt))
        (parse_conversation text cg pt) := rfl
  have e4 : A.principle_scores.presence_over_performance =
      score_no_pressure (caregiverTurns (parse_conversation text cg pt)) := rfl
  have s1 : A.principle_scores.ritual_over_stimulation.score = 0 := by
    rw [e1, h]
    decide
  have s2 : A.principle_scores.short_steady_repeatable.score = 0 := by
    rw [e2, h]
    decide
  have s3 : A.principle_scores.emotion_over_accuracy.score = (0.65 : ℚ) := by
    rw [e3, h, score_emotional_validation_nil, Rat.mkRat_eq_div]
    norm_num
  have s4 : A.principle_scores.presence_over_performance.score = (0.9 : ℚ) := by
    rw [e4, h]
    show (mkRat 9 10 : ℚ) = _
    rw [Rat.mkRat_eq_div]
    norm_num
  have hov : A.overall_score = calculate_overall_score A.principle_scores := rfl
  have sov : A.overall_score = (0.42 : ℚ) := by
    rw [hov, calculate_overall_eq, s1, s2, s3, s4, round2_eq]
    have hf : ⌊(0 * 0.25 + 0.65 * 0.30 + 0.9 * 0.25 + 0 * 0.20 : ℚ) * 100 + 1 / 2⌋ = 42 := by
      rw [Int.floor_eq_iff]
      norm_num
    rw [hf]
    norm_num
  have hgr : A.grade = score_to_grade A.overall_score := rfl
  refine ⟨s1, s2, s3, s4, sov, ?_⟩
  rw [hgr]
  exact (score_to_grade_iff A.overall_score).2.2.2.2.mpr (by rw [sov]; norm_num)

theorem charBeq_comm (a b : Char) : (a == b) = (b == a) := by
  by_cases h : a = b
  · subst h
    rfl
  · rw [beq_eq_false_iff_ne.mpr h, beq_eq_false_iff_ne.mpr (Ne.symm h)]

theorem splitFirstChar_eq (sep : Char) (l : List Char) :
    splitFirstChar sep l =
      if isInfixL [sep] l = true then
        some (l.takeWhile (fun c => !(c == sep)), (l.dropWhile (fun c => !(c == sep))).tail)
      else none := by
  induction l with
  | nil => rfl
  | cons x xs ih =>
    by_cases hx : (x == sep) = true
    · have hsx : (sep == x) = true := by rw [charBeq_comm]; exact hx
      simp only [splitFirstChar, hx, if_true, isInfixL, isPrefixL, hsx, Bool.and_self,
        Bool.true_or, List.takeWhile_cons, Bool.not_true, if_false, List.dropWhile_cons,
        Bool.and_true, Bool.true_and]
      simp
    · have hsx : (sep == x) = false := by
        rw [charBeq_comm]
        simpa using hx
      have hx' : (x == sep) = false := by simpa using hx
      simp only [splitFirstChar, hx', if_false, ih, isInfixL, isPrefixL, hsx,
        Bool.false_and, Bool.and_true, Bool.false_or, List.takeWhile_cons, Bool.not_false,
        if_true, List.dropWhile_cons]
      by_cases hc : isInfixL [sep] xs = true
      · simp [hc]
      · simp only [Bool.not_eq_true] at hc
        simp [hc]

theorem parseLine_eq_spec (cg pt line : String) :
    parseLine cg pt line = parseLineSpec cg pt line := by
  unfold parseLine parseLineSpec
  have hcont : pyContains line ":" = isInfixL [':'] line.data := rfl
  rw [splitFirstChar_eq, hcont]
  by_cases h1 : pyStartsWith (pyLower line) (pyLower cg ++ ":") = true
  · simp only [h1, if_true]
  · simp only [Bool.not_eq_true] at h1
    by_cases h2 : pyStartsWith (pyLower line) (pyLower pt ++ ":") = true
    · simp only [h1, h2, Bool.false_eq_true, if_false, if_true]
    · simp only [Bool.not_eq_true] at h2
      by_cases h3 : isInfixL [':'] line.data = true
      · simp only [h1, h2, h3, Bool.false_eq_true, if_false, if_true]
      · simp only [Bool.not_eq_true] at h3
        simp only [h1, h2, h3, Bool.false_eq_true, if_false]

theorem parse_foldl (cg pt : String) (lines : List String) (acc : List Turn) :
    lines.foldl (parseStep cg pt) acc
    = acc ++ ((lines.map pyStrip).filter (fun l => l ≠ "")).map (parseLine cg pt) := by
  induction lines generalizing acc with
  | nil => simp
  | cons x xs ih =>
    rw [List.foldl_cons, ih, List.map_cons, List.filter_cons]
    by_cases hx : pyStrip x = ""
    · simp [parseStep, hx]
    · simp [parseStep, hx]

theorem mem_ite_singleton {α : Type} (v r : α) (c : Prop) [Decidable c] :
    v ∈ (if c then [r] else []) ↔ c ∧ v = r := by
  split <;> simp_all

theorem turnViolations_turn_number (i : Nat) (t : Turn) :
    ∀ v ∈ turnViolations i t, v.turn_number = i + 1 := by
  intro v hv
  unfold turnViolations at hv
  simp only [List.mem_append, mem_ite_singleton] at hv
  rcases hv with ((⟨_, rfl⟩ | ⟨_, rfl⟩) | ⟨_, rfl⟩) | ⟨_, rfl⟩ <;> rfl

theorem turnViolations_tmc_type (i : Nat) (t : Turn) (v : Violation)
    (hv : v ∈ turnViolations i t) (ht : v.type = "too_many_choices") :
    2 ≤ pyCount t.text_lower "or" ∧ v.severity = "medium" := by
  unfold turnViolations at hv
  simp only [List.mem_append, mem_ite_singleton] at hv
  rcases hv with ((⟨h1, rfl⟩ | ⟨h2, rfl⟩) | ⟨h3, rfl⟩) | ⟨h4, rfl⟩
  · exact absurd ht (by simp [memory_testing_violation])
  · exact absurd ht (by simp [correction_violation])
  · exact ⟨h3, rfl⟩
  · exact absurd ht (by simp [too_many_questions_violation])

theorem turnViolations_tmc_exists (i : Nat) (t : Turn)
    (h : 2 ≤ pyCount t.text_lower "or") :
    ∃ v ∈ turnViolations i t,
      v.type = "too_many_choices" ∧ v.severity = "medium" ∧ v.turn_number = i + 1 := by
  refine ⟨too_many_choices_violation i t, ?_, rfl, rfl, rfl⟩
  unfold turnViolations
  simp only [List.mem_append, mem_ite_singleton]
  exact Or.inl (Or.inr ⟨h, trivial⟩)

theorem turnViolations_memtest_exists (i : Nat) (t : Turn)
    (h : memory_testing_phrases.any (fun p => pyContains t.text_lower p) = true) :
    ∃ v ∈ turnViolations i t, v.type = "memory_testing" ∧ v.severity = "high" := by
  refine ⟨memory_testing_violation i t, ?_, rfl, rfl⟩
  unfold turnViolations
  simp only [List.mem_append, mem_ite_singleton]
  exact Or.inl (Or.inl (Or.inl ⟨h, trivial⟩))

theorem mem_detectAux (n : Nat) (l : List Turn) (v : Violation) :
    v ∈ detectAux n l ↔
      ∃ j, ∃ hj : j < l.length, v ∈ turnViolations (n + j) (l.get ⟨j, hj⟩) := by
  induction l generalizing n with
  | nil => simp [detectAux]
  | cons t rest ih =>
    simp only [detectAux, List.mem_append, ih]
    constructor
    · rintro (hv | ⟨j, hj, hv⟩)
      · exact ⟨0, by simp, by simpa using hv⟩
      · refine ⟨j + 1, by simpa using Nat.succ_lt_succ hj, ?_⟩
        have he : n + 1 + j = n + (j + 1) := by omega
        rw [he] at hv
        simpa using hv
    · rintro ⟨j, hj, hv⟩
      cases j with
      | zero =>
        left
        simpa using hv
      | succ j =>
        right
        simp only [List.length_cons] at hj
        refine ⟨j, by omega, ?_⟩
        have he : n + 1 + j = n + (j + 1) := by omega
        rw [he]
        simpa using hv

/-- C6 counterexample: the caregiver line "I wore your formal coat"
contains the literal word "or" zero times, yet the detector emits a
medium too_many_choices violation for it (the code counts the substring
"or", which occurs in "wore" and "formal") — so the claim's
"exactly when the count of the literal word is at least 2" is false. -/
theorem claim_C6_counterexample :
    (∃ v ∈ detect_violations
        (parse_conversation "Caregiver: I wore your formal coat" "Sue" "Mom") "moderate",
       v.type = "too_many_choices" ∧ v.severity = "medium") ∧
    (∀ t ∈ caregiverTurns
        (parse_conversation "Caregiver: I wore your formal coat" "Sue" "Mom"),
       literalWordCount "or" t.text_lower = 0) := by decide

/-- C6 amended: the detector emits a medium too_many_choices violation
for the caregiver turn at (0-based) index `i` exactly when the
non-overlapping count of the SUBSTRING "or" in that turn's lowercased
text (occurrences inside words included) is at least 2. -/
theorem claim_C6_too_many_choices_substring (turns : List Turn) (stage : String) (i : Nat)
    (h : i < (caregiverTurns turns).length) :
    (∃ v ∈ detect_violations turns stage,
       v.type = "too_many_choices" ∧ v.severity = "medium" ∧ v.turn_number = i + 1) ↔
    2 ≤ pyCount ((caregiverTurns turns).get ⟨i, h⟩).text_lower "or" := by
  unfold detect_violations
  constructor
  · rintro ⟨v, hv, ht, _, hn⟩
    rw [mem_detectAux] at hv
    obtain ⟨j, hj, hv⟩ := hv
    have hnum := turnViolations_turn_number _ _ v hv
    have hji : j = i := by omega
    subst hji
    have := (turnViolations_tmc_type _ _ v hv ht).1
    simpa using this
  · intro h2
    obtain ⟨v, hv, hprops⟩ := turnViolations_tmc_exists i ((caregiverTurns turns).get ⟨i, h⟩) h2
    refine ⟨v, ?_, hprops⟩
    rw [mem_detectAux]
    exact ⟨i, h, by simpa using hv⟩

/-- Witness for the amended C6 at a caregiver line offering two
alternatives ("tea or coffee or juice"). -/
theorem claim_C6_witness :
    ∃ v ∈ detect_violations
        (parse_conversation "Caregiver: tea or coffee or juice?" "Sue" "Mom") "moderate",
      v.type = "too_many_choices" ∧ v.severity = "medium" ∧ v.turn_number = 0 + 1 :=
  (claim_C6_too_many_choices_substring
    (parse_conversation "Caregiver: tea or coffee or juice?" "Sue" "Mom") "moderate" 0
    (by decide)).mpr (by decide)

theorem append_singleton_not_isEmpty {α : Type} (l : List α) (x : α) :
    (l ++ [x]).isEmpty = false := by
  cases l <;> rfl

theorem append_append_singleton_not_isEmpty {α : Type} (l m : List α) (x : α) :
    (l ++ (m ++ [x])).isEmpty = false := by
  cases l <;> cases m <;> rfl

theorem generate_recommendations_valid_stage (turns : List Turn) (scores : PrincipleScores)
    (violations : List Violation) (stage : String)
    (hs : stage = "early" ∨ stage = "moderate" ∨ stage = "late") :
    generate_recommendations turns scores violations stage =
      (if (violations.filter (fun v => v.severity == "high")).isEmpty then []
       else [stop_testing_memory_rec])
      ++ principleRecsOf scores stage ++ [stageRecOf stage] := by
  unfold generate_recommendations
  have key : (if violations.isEmpty then principleRecsOf scores stage
      else if (violations.filter (fun v => v.severity == "high")).isEmpty then
        principleRecsOf scores stage
      else stop_testing_memory_rec :: principleRecsOf scores stage)
      = (if (violations.filter (fun v => v.severity == "high")).isEmpty then []
         else [stop_testing_memory_rec]) ++ principleRecsOf scores stage := by
    by_cases h : violations.isEmpty = true
    · have hv : violations = [] := List.isEmpty_iff.mp h
      subst hv
      rfl
    · simp only [h, Bool.false_eq_true, if_false]
      by_cases hf : (violations.filter (fun v => v.severity == "high")).isEmpty = true
      · simp [hf]
      · simp only [Bool.not_eq_true] at hf
        simp [hf]
  dsimp only
  rw [key]
  rcases hs with rfl | rfl | rfl <;>
    simp only [show (("early" : String) == "early") = true from rfl,
      show (("moderate" : String) == "early") = false from rfl,
      show (("moderate" : String) == "moderate") = true from rfl,
      show (("late" : String) == "early") = false from rfl,
      show (("late" : String) == "moderate") = false from rfl,
      show (("late" : String) == "late") = true from rfl,
      if_true, if_false, Bool.false_eq_true, List.append_assoc,
      append_singleton_not_isEmpty, append_append_singleton_not_isEmpty, stageRecOf]

theorem principleRecsOf_mem (scores : PrincipleScores) (stage : String) :
    ∀ r ∈ principleRecsOf scores stage,
      r = ritual_principle_rec ∨ r = emotion_principle_rec ∨
      r = presence_principle_rec ∨ r = brevity_principle_rec := by
  intro r hr
  unfold principleRecsOf principleScoresList at hr
  rw [List.mem_filterMap] at hr
  obtain ⟨kv, hkv, hf⟩ := hr
  simp only [List.mem_cons, List.not_mem_nil, or_false] at hkv
  rcases hkv with rfl | rfl | rfl | rfl
  · rw [show get_principle_recommendation "ritual_over_stimulation" stage =
        some ritual_principle_rec from rfl] at hf
    split at hf
    · exact Or.inl (Option.some.inj hf).symm
    · cases hf
  · rw [show get_principle_recommendation "emotion_over_accuracy" stage =
        some emotion_principle_rec from rfl] at hf
    split at hf
    · exact Or.inr (Or.inl (Option.some.inj hf).symm)
    · cases hf
  · rw [show get_principle_recommendation "presence_over_performance" stage =
        some presence_principle_rec from rfl] at hf
    split at hf
    · exact Or.inr (Or.inr (Or.inl (Option.some.inj hf).symm))
    · cases hf
  · rw [show get_principle_recommendation "short_steady_repeatable" stage =
        some brevity_principle_rec from rfl] at hf
    split at hf
    · exact Or.inr (Or.inr (Or.inr (Option.some.inj hf).symm))
    · cases hf

theorem principleRecsOf_filter_nil (scores : PrincipleScores) (stage : String)
    (p : Recommendation → Bool)
    (h1 : p ritual_principle_rec = false) (h2 : p emotion_principle_rec = false)
    (h3 : p presence_principle_rec = false) (h4 : p brevity_principle_rec = false) :
    (principleRecsOf scores stage).filter p = [] := by
  rw [List.filter_eq_nil]
  intro r hr
  rcases principleRecsOf_mem scores stage r hr with rfl | rfl | rfl | rfl <;>
    simp [h1, h2, h3, h4]

theorem principleRecsOf_not_mem (scores : PrincipleScores) (stage : String)
    (r : Recommendation)
    (h1 : r ≠ ritual_principle_rec) (h2 : r ≠ emotion_principle_rec)
    (h3 : r ≠ presence_principle_rec) (h4 : r ≠ brevity_principle_rec) :
    r ∉ principleRecsOf scores stage := by
  intro hr
  rcases principleRecsOf_mem scores stage r hr with he | he | he | he
  · exact h1 he
  · exact h2 he
  · exact h3 he
  · exact h4 he

/-- C7: for every transcript and every valid dementia stage (early,
moderate or late), the recommendation list contains exactly one
stage-specific recommendation; the single critical-category "Stop
Testing Memory" recommendation is present (and placed first) exactly
when some high-severity violation exists; and the generic "Structure
Your Visit" recommendation appears only if no other recommendation was
produced. -/
theorem claim_C7_recommendation_structure (text cg pt stage : String)
    (hstage : stage = "early" ∨ stage = "moderate" ∨ stage = "late") :
    ((analyze_conversation text cg pt stage).recommendations.filter (fun r => r.category == "stage_specific")).length = 1 ∧
    ((∃ v ∈ (analyze_conversation text cg pt stage).violations, v.severity = "high") →
       (analyze_conversation text cg pt stage).recommendations.head? = some stop_testing_memory_rec) ∧
    ((analyze_conversation text cg pt stage).recommendations.filter (fun r => r.category == "critical") =
       if ((analyze_conversation text cg pt stage).violations.filter (fun v => v.severity == "high")).isEmpty then []
       else [stop_testing_memory_rec]) ∧
    (structure_your_visit_rec ∈ (analyze_conversation text cg pt stage).recommendations →
       (analyze_conversation text cg pt stage).recommendations = [structure_your_visit_rec]) := by
  have hrec : (analyze_conversation text cg pt stage).recommendations =
      generate_recommendations (parse_conversation text cg pt) (analyze_conversation text cg pt stage).principle_scores
        (analyze_conversation text cg pt stage).violations stage := rfl
  have hshape := generate_recommendations_valid_stage (parse_conversation text cg pt)
    (analyze_conversation text cg pt stage).principle_scores (analyze_conversation text cg pt stage).violations stage hstage
  rw [hshape] at hrec
  have hstagecat : (stageRecOf stage).category = "stage_specific" := by
    rcases hstage with rfl | rfl | rfl <;> rfl
  refine ⟨?_, ?_, ?_, ?_⟩
  · rw [hrec]
    rw [List.filter_append, List.filter_append]
    rw [principleRecsOf_filter_nil _ _ _ (by decide) (by decide) (by decide) (by decide)]
    have h2 : List.filter (fun r => r.category == "stage_specific") [stageRecOf stage]
        = [stageRecOf stage] := by
      simp [List.filter, hstagecat]
    rw [h2]
    split <;> simp [stop_testing_memory_rec]
  · intro ⟨v, hv, hsev⟩
    have hne : ((analyze_conversation text cg pt stage).violations.filter (fun v => v.severity == "high")).isEmpty = false := by
      have : v ∈ (analyze_conversation text cg pt stage).violations.filter (fun v => v.severity == "high") := by
        rw [List.mem_filter]
        exact ⟨hv, by simp [hsev]⟩
      rcases hmem : (analyze_conversation text cg pt stage).violations.filter (fun v => v.severity == "high") with _ | ⟨a, l⟩
      · rw [hmem] at this
        cases this
      · rw [hmem]
        rfl
    rw [hrec, hne]
    simp
  · rw [hrec]
    rw [List.filter_append, List.filter_append]
    rw [principleRecsOf_filter_nil _ _ _ (by decide) (by decide) (by decide) (by decide)]
    have h2 : List.filter (fun r => r.category == "critical") [stageRecOf stage] = [] := by
      simp [List.filter, hstagecat]
    rw [h2]
    split <;> simp [stop_testing_memory_rec]
  · intro hmem
    exfalso
    rw [hrec] at hmem
    simp only [List.mem_append] at hmem
    rcases hmem with (hc | hp) | hs
    · revert hc
      split <;> simp only [List.not_mem_nil, List.mem_singleton, not_false_eq_true] <;> decide
    · exact principleRecsOf_not_mem _ _ _ (by decide) (by decide) (by decide) (by decide) hp
    · rcases hstage with rfl | rfl | rfl <;> revert hs <;> decide

/-- Witness for C7 at the empty transcript with the moderate stage. -/
theorem claim_C7_witness :
    (((analyze_conversation "" "Ann" "Bea" "moderate").recommendations.filter
        (fun r => r.category == "stage_specific")).length = 1) :=
  (claim_C7_recommendation_structure "" "Ann" "Bea" "moderate"
    (Or.inr (Or.inl rfl))).1

/-- C8 (code-bug evidence): at the empty transcript — zero caregiver
turns — the phase analysis reports no detected phases and
`follows_structure = false` as the claim says, but `missing_phases`
holds the six full phase configuration dicts instead of the six phase
names, so it is not the complement of `detected_phases` among the
names, and `phase_count` is absent. -/
theorem claim_C8_phase_analysis_empty_bug :
    (analyze_conversation "" "Ann" "Bea" "moderate").phase_analysis.detected_phases = [] ∧
    (analyze_conversation "" "Ann" "Bea" "moderate").phase_analysis.follows_structure = false ∧
    (analyze_conversation "" "Ann" "Bea" "moderate").phase_analysis.missing_phases =
      IDEAL_SESSION_phases.map PhaseItem.config ∧
    (analyze_conversation "" "Ann" "Bea" "moderate").phase_analysis.missing_phases ≠
      (IDEAL_SESSION_phases.map PhaseConfig.name).map PhaseItem.name ∧
    (analyze_conversation "" "Ann" "Bea" "moderate").phase_analysis.phase_count = none := by
  decide

theorem parse_text_lower (text cg pt : String) :
    ∀ u ∈ parse_conversation text cg pt, u.text_lower = pyLower u.text := by
  intro u hu
  have hbase : parse_conversation text cg pt = (nonEmptyLines text).map (parseLine cg pt) := by
    unfold parse_conversation nonEmptyLines
    rw [parse_foldl]
    simp
  rw [hbase] at hu
  obtain ⟨line, _, rfl⟩ := List.mem_map.mp hu
  unfold parseLine
  split
  · rfl
  · split
    · rfl
    · split <;> rfl

theorem detect_memtest (turns : List Turn) (stage : String) (t : Turn)
    (ht : t ∈ caregiverTurns turns)
    (hcond : memory_testing_phrases.any (fun p => pyContains t.text_lower p) = true) :
    ∃ v ∈ detect_violations turns stage, v.type = "memory_testing" ∧ v.severity = "high" := by
  unfold detect_violations
  obtain ⟨⟨j, hj⟩, hget⟩ := List.mem_iff_get.mp ht
  obtain ⟨v, hv, hprops⟩ := turnViolations_memtest_exists j t hcond
  refine ⟨v, ?_, hprops⟩
  rw [mem_detectAux]
  refine ⟨j, hj, ?_⟩
  rw [Nat.zero_add, hget]
  exact hv

theorem clamp_le (x b : ℚ) (hx : x ≤ b) (hb : 0 ≤ b) : pyMin 1 (pyMax 0 x) ≤ b := by
  rw [pyMin_eq, pyMax_eq]
  exact le_trans (min_le_right _ _) (max_le hb hx)

theorem le_clamp (x b : ℚ) (hx : b ≤ x) (hb1 : b ≤ 1) : b ≤ pyMin 1 (pyMax 0 x) := by
  rw [pyMin_eq, pyMax_eq]
  exact le_min hb1 (le_trans hx (le_max_right 0 x))

theorem score_no_pressure_testing_le (cts : List Turn)
    (h : ∃ t ∈ cts, turnMatchesTesting t = true) :
    (score_no_pressure cts).score ≤ mkRat 4 5 := by
  have hcount : 0 < cts.countP turnMatchesTesting := List.countP_pos.mpr h
  have hc1 : (1 : ℚ) ≤ (cts.countP turnMatchesTesting : ℚ) := by
    exact_mod_cast hcount
  unfold score_no_pressure
  dsimp only
  rw [if_pos hcount]
  have h45 : (mkRat 4 5 : ℚ) = 4 / 5 := by rw [Rat.mkRat_eq_div]; norm_num
  rw [h45]
  have hsub : qSub (mkRat 4 5) (pyMin (mkRat 2 5)
      (qMul (qOfNat (cts.countP turnMatchesTesting)) (mkRat 3 20))) ≤ 13 / 20 := by
    rw [qSub_eq, qMul_eq, qOfNat_eq, pyMin_eq, h45]
    have hmin : (3 : ℚ) / 20 ≤ min (mkRat 2 5) ((cts.countP turnMatchesTesting : ℚ) * mkRat 3 20) := by
      apply le_min
      · rw [Rat.mkRat_eq_div]
        norm_num
      · rw [Rat.mkRat_eq_div]
        push_cast
        nlinarith [hc1]
    linarith
  split
  · apply clamp_le _ _ _ (by norm_num)
    rw [qAdd_eq]
    have hbonus : pyMin (mkRat 3 20)
        (qMul (qOfNat (cts.countP fun t =>
          invitation_phrases.any fun p => pyContains t.text_lower p)) (mkRat 1 20)) ≤ 3 / 20 := by
      rw [pyMin_eq]
      refine le_trans (min_le_left _ _) ?_
      rw [Rat.mkRat_eq_div]
      norm_num
    linarith
  · apply clamp_le _ _ _ (by norm_num)
    linarith

theorem score_no_pressure_no_testing_ge (cts : List Turn)
    (h : ∀ t ∈ cts, turnMatchesTesting t = false) :
    mkRat 9 10 ≤ (score_no_pressure cts).score := by
  have hcount : cts.countP turnMatchesTesting = 0 := by
    rw [List.countP_eq_zero]
    intro a ha
    simp [h a ha]
  unfold score_no_pressure
  dsimp only
  rw [hcount]
  have h910 : (mkRat 9 10 : ℚ) = 9 / 10 := by rw [Rat.mkRat_eq_div]; norm_num
  have hbase : qAdd (mkRat 4 5) (mkRat 1 10) = 9 / 10 := by
    rw [qAdd_eq, Rat.mkRat_eq_div, Rat.mkRat_eq_div]
    norm_num
  simp only [gt_iff_lt, lt_self_iff_false, if_false]
  split
  · rw [h910]
    apply le_clamp _ _ _ (by norm_num)
    rw [qAdd_eq, hbase]
    have hbonus : 0 ≤ pyMin (mkRat 3 20)
        (qMul (qOfNat (cts.countP fun t =>
          invitation_phrases.any fun p => pyContains t.text_lower p)) (mkRat 1 20)) := by
      rw [pyMin_eq, qMul_eq, qOfNat_eq]
      apply le_min
      · rw [Rat.mkRat_eq_div]
        norm_num
      · apply mul_nonneg (by positivity)
        rw [Rat.mkRat_eq_div]
        norm_num
    exact le_add_of_nonneg_right hbonus
  · rw [h910, hbase]
    apply le_clamp _ _ (le_refl _) (by norm_num)

theorem high_filter_not_isEmpty (violations : List Violation)
    (h : ∃ v ∈ violations, v.severity = "high") :
    (violations.filter (fun v => v.severity == "high")).isEmpty = false := by
  obtain ⟨v, hv, hsev⟩ := h
  have hmem : v ∈ violations.filter (fun v => v.severity == "high") := by
    rw [List.mem_filter]
    exact ⟨hv, by simp [hsev]⟩
  rcases he : violations.filter (fun v => v.severity == "high") with _ | ⟨a, l⟩
  · rw [he] at hmem
    cases hmem
  · rw [he]
    rfl

theorem generate_recommendations_head_critical (turns : List Turn) (scores : PrincipleScores)
    (violations : List Violation) (stage : String)
    (h : (violations.filter (fun v => v.severity == "high")).isEmpty = false) :
    (generate_recommendations turns scores violations stage).head? =
      some stop_testing_memory_rec := by
  unfold generate_recommendations
  dsimp only
  have hvne : violations.isEmpty = false := by
    rcases violations with _ | ⟨a, l⟩
    · simp at h
    · rfl
  rw [hvne, h]
  simp only [Bool.false_eq_true, if_false]
  split_ifs <;> simp [List.cons_append, append_singleton_not_isEmpty]

/-- C9: a transcript in which some caregiver turn's text is exactly
"Do you remember when we went fishing?" produces a high-severity
memory_testing violation; its presence-over-performance score (at most
0.8, the testing penalty replacing the +0.1 bonus) is strictly lower
than the score of any caregiver-turn list free of testing patterns (at
least 0.9); and the "Stop Testing Memory" recommendation with priority
immediate is the first recommendation. -/
theorem claim_C9_memory_testing_effects (text cg pt stage : String)
    (h : ∃ t ∈ parse_conversation text cg pt,
       t.speaker = "caregiver" ∧ t.text = "Do you remember when we went fishing?") :
    let A := analyze_conversation text cg pt stage
    (∃ v ∈ A.violations, v.type = "memory_testing" ∧ v.severity = "high") ∧
    (∀ cts : List Turn, (∀ t ∈ cts, turnMatchesTesting t = false) →
       A.principle_scores.presence_over_performance.score < (score_no_pressure cts).score) ∧
    A.recommendations.head? = some stop_testing_memory_rec ∧
    stop_testing_memory_rec.priority = "immediate" := by
  intro A
  obtain ⟨t, htmem, hspk, htext⟩ := h
  have hlow : t.text_lower = pyLower t.text := parse_text_lower text cg pt t htmem
  have htl : t.text_lower = "do you remember when we went fishing?" := by
    rw [hlow, htext]
    rfl
  have hcg : t ∈ caregiverTurns (parse_conversation text cg pt) := by
    rw [caregiverTurns, List.mem_filter]
    exact ⟨htmem, by simp [hspk]⟩
  have hcond : memory_testing_phrases.any (fun p => pyContains t.text_lower p) = true := by
    rw [htl]
    decide
  have hviol : ∃ v ∈ detect_violations (parse_conversation text cg pt) stage,
      v.type = "memory_testing" ∧ v.severity = "high" :=
    detect_memtest (parse_conversation text cg pt) stage t hcg hcond
  have hmatch : turnMatchesTesting t = true := by
    rw [turnMatchesTesting, htl]
    decide
  have hle := score_no_pressure_testing_le (caregiverTurns (parse_conversation text cg pt))
    ⟨t, hcg, hmatch⟩
  refine ⟨hviol, ?_, ?_, rfl⟩
  · intro cts hcts
    have hge := score_no_pressure_no_testing_ge cts hcts
    have hpres : A.principle_scores.presence_over_performance.score =
        (score_no_pressure (caregiverTurns (parse_conversation text cg pt))).score := rfl
    have h45 : (mkRat 4 5 : ℚ) < mkRat 9 10 := by
      rw [Rat.mkRat_eq_div, Rat.mkRat_eq_div]
      norm_num
    rw [hpres]
    linarith
  · have hne : ((detect_violations (parse_conversation text cg pt) stage).filter
        (fun v => v.severity == "high")).isEmpty = false := by
      apply high_filter_not_isEmpty
      obtain ⟨v, hv, _, hsev⟩ := hviol
      exact ⟨v, hv, hsev⟩
    exact generate_recommendations_head_critical (parse_conversation text cg pt)
      A.principle_scores (detect_violations (parse_conversation text cg pt) stage) stage hne

/-- Witness for C9 at a one-line transcript whose caregiver turn is the
fishing question. -/
theorem claim_C9_witness :
    (∃ v ∈ (analyze_conversation "Sue: Do you remember when we went fishing?"
        "Sue" "Mom" "moderate").violations,
       v.type = "memory_testing" ∧ v.severity = "high") ∧
    (analyze_conversation "Sue: Do you remember when we went fishing?"
        "Sue" "Mom" "moderate").principle_scores.presence_over_performance.score <
      (score_no_pressure []).score ∧
    (analyze_conversation "Sue: Do you remember when we went fishing?"
        "Sue" "Mom" "moderate").recommendations.head? = some stop_testing_memory_rec := by
  have h := claim_C9_memory_testing_effects "Sue: Do you remember when we went fishing?"
    "Sue" "Mom" "moderate" (by decide)
  exact ⟨h.1, h.2.1 [] (by intro t ht; cases ht), h.2.2.1⟩

/-- Witness for C10 at the empty transcript. -/
theorem claim_C10_witness :
    (analyze_conversation "" "Ann" "Bea" "moderate").overall_score = (0.42 : ℚ) ∧
    (analyze_conversation "" "Ann" "Bea" "moderate").grade = "F" := by
  have h := claim_C10_no_caregiver_turns "" "Ann" "Bea" "moderate" (by decide)
  exact ⟨h.2.2.2.2.1, h.2.2.2.2.2⟩

/-- C5: the turn parser matches its contract — it produces exactly one
turn per non-empty line, in original order, with the speaker decided by
(a) name-prefix match, (b) first-colon label classification, (c)
unknown fallback, never failing on malformed lines; and the empty
transcript yields the empty turn sequence. -/
theorem claim_C5_turn_parser_contract :
    (∀ text cg pt : String,
       parse_conversation text cg pt = parse_conversation_spec text cg pt) ∧
    (∀ text cg pt : String,
       parse_conversation text cg pt = (nonEmptyLines text).map (parseLine cg pt)) ∧
    (∀ cg pt : String, parse_conversation "" cg pt = []) := by
  have hbase : ∀ text cg pt : String,
      parse_conversation text cg pt = (nonEmptyLines text).map (parseLine cg pt) := by
    intro text cg pt
    unfold parse_conversation nonEmptyLines
    rw [parse_foldl]
    simp
  refine ⟨?_, hbase, fun cg pt => rfl⟩
  intro text cg pt
  rw [hbase, parse_conversation_spec]
  exact List.map_congr_left (fun line _ => parseLine_eq_spec cg pt line)
